import Mathlib

/-!
# Plotplusplus: the Figure render pipeline

A shallow embedding of `src/plotpp/Figure.cpp`.

* A `FILE*` opened for writing is modelled by the text written to it so far
  (`Sink`); `fmt::print(fptr, ...)` appends to it.
* `float` and `double` are type parameters `F` and `D`; the conversions and
  formatters that the translation unit takes from its headers are the fields
  of `Externals`.
* A series (`IPlot`) is its current identity together with the text its three
  printing methods write, as functions of that identity.
-/

namespace plotpp

/-! ## Types declared in the headers -/

/-- File kinds. `Figure.cpp` names `NONE`, `gp` and `png`; every further
enumerator of the header is an `other`. -/
inductive OutputFileType where
  | NONE
  | gp
  | png
  | other (tag : Nat)
deriving DecidableEq, Repr

/-- Terminal kinds. `Figure.cpp` names only the sentinel `NONE`. -/
inductive TerminalType where
  | NONE
  | other (tag : Nat)
deriving DecidableEq, Repr

/-- Styled text fragment: the members the constructor `Figure(std::string)`
assigns (`str`, `height`, `bold`). -/
structure Text where
  str : String
  height : Nat
  bold : Bool
deriving DecidableEq, Repr

/-- Modelled from the spec: `Text::empty()` is declared in a header that is
not part of the sources; "a label is empty iff its content is empty,
regardless of other fields". -/
def Text.empty (t : Text) : Bool := decide (t.str = "")

/-- Modelled from the spec: the conversion of a `Text` to `std::string` used by
`filename = title_` in `save` is declared in a header that is not part of the
sources; "default it to the title's text content". -/
def Text.toStdString (t : Text) : String := t.str

/-- The text stream behind a `FILE*`: everything written so far. -/
abbrev Sink := String

/-- Model of `fmt::print(fptr, text)`: appends to the stream. -/
def fprint (fptr : Sink) (text : String) : Sink := fptr ++ text

/-- What `Figure.cpp` uses from its headers and libraries without defining it:
the output-target tables, the `{}` formatters of `fmt` for `Text`, `float` and
`double`, `static_cast<double>` on a `size_t`, and what the iteration over
`c9::zip` of the tic labels and tic values yields when the two sequences differ
in length (`zip_unequal`), which nothing in the sources or the specification
determines. -/
structure Externals (F D : Type) where
  to_command : TerminalType → String
  to_file_ending : OutputFileType → String
  to_terminal : OutputFileType → TerminalType
  filetype_from_filename : String → OutputFileType
  fmtText : Text → String
  fmtFloat : F → String
  fmtDouble : D → String
  castDouble : Nat → D
  zip_unequal : List String → List D → List (String × D)

/-- A series behind the `IPlot` interface: its current identity and the text
that `printSettings`, `printData` and `printPlot` write for a given identity. -/
structure IPlot where
  uid_ : Nat
  settings : Nat → String
  data : Nat → String
  clause : Nat → String

/-- Modelled from the spec: `IPlot::uid(i)` is declared in a header that is not
part of the sources. `Figure::plot` hands it the counter `i` of a loop that never
changes `i` itself; "Assign identity = position index to every series in
collection order": the call stores the counter as the identity of the series
and advances the counter. The result is the series and the counter after the
call. -/
def IPlot.uid (p : IPlot) (i : Nat) : IPlot × Nat := ({ p with uid_ := i }, i + 1)

/-- Model of `IPlot::printSettings(fptr)`. -/
def IPlot.printSettings (p : IPlot) (fptr : Sink) : Sink := fprint fptr (p.settings p.uid_)

/-- Model of `IPlot::printData(fptr)`. -/
def IPlot.printData (p : IPlot) (fptr : Sink) : Sink := fprint fptr (p.data p.uid_)

/-- Model of `IPlot::printPlot(fptr)`. -/
def IPlot.printPlot (p : IPlot) (fptr : Sink) : Sink := fprint fptr (p.clause p.uid_)

/-- The data members of `Figure` that `Figure.cpp` reads or writes. -/
structure Figure (F D : Type) where
  title_ : Text
  xlabel_ : Text
  ylabel_ : Text
  min_x_ : F
  max_x_ : F
  min_y_ : F
  max_y_ : F
  log_x_base_ : F
  log_y_base_ : F
  reverse_x_ : Bool
  reverse_y_ : Bool
  autoscale_x_ : Bool
  autoscale_y_ : Bool
  log_x_ : Bool
  log_y_ : Bool
  show_legend_ : Bool
  gnuplot_pipe_ : Option Nat
  plots_ : List IPlot
  xtics_labels_ : List String
  xtics_values_ : List D

variable {F D : Type}

/-! ## Series and tics management (lines 90-115) -/

/-- `Figure::add`: `plots_.push_back(plot)`. -/
def Figure.add (fig : Figure F D) (plot : IPlot) : Figure F D :=
  { fig with plots_ := fig.plots_ ++ [plot] }

/-- The loop of `Figure::xtics(tic_labels)`:
`for(size_t i = 0; i < n; ++i) xtics_values_.emplace_back(static_cast<double>(i))`,
with `k` iterations left. -/
def xtics_fill (E : Externals F D) : Nat → Nat → List D → List D
  | 0, _, values => values
  | k + 1, i, values => xtics_fill E k (i + 1) (values ++ [E.castDouble i])

/-- `Figure::xtics(tic_labels)` (lines 96-103). -/
def Figure.xtics (E : Externals F D) (fig : Figure F D) (tic_labels : List String) :
    Figure F D :=
  let xtics_labels := tic_labels
  let xtics_values : List D := []
  { fig with
    xtics_labels_ := xtics_labels
    xtics_values_ := xtics_fill E xtics_labels.length 0 xtics_values }

/-- `Figure::xtics(tic_labels, tic_values)` (lines 105-109). -/
def Figure.xtics2 (fig : Figure F D) (tic_labels : List String) (tic_values : List D) :
    Figure F D :=
  { fig with xtics_labels_ := tic_labels, xtics_values_ := tic_values }

/-- `Figure::clear_xtics` (lines 111-115). -/
def Figure.clear_xtics (fig : Figure F D) : Figure F D :=
  { fig with xtics_labels_ := [], xtics_values_ := [] }

/-! ## `Figure::plot` (lines 183-289), step by step -/

/-- Lines 184-187: `size_t i = 0; for(plot : plots_) plot->uid(i);`.
The loop leaves the counter `i` to `uid`. -/
def plot_uids : List IPlot → Nat → List IPlot
  | [], _ => []
  | plot :: rest, i => (plot.uid i).1 :: plot_uids rest (plot.uid i).2

/-- Lines 189-190: the terminal and the output directive. -/
def plot_header (E : Externals F D) (fptr : Sink) (terminalType : TerminalType)
    (saveAs : String) : Sink :=
  let fptr := if terminalType ≠ TerminalType.NONE then
      fprint fptr ("set terminal " ++ E.to_command terminalType ++ "\n") else fptr
  let fptr := if saveAs ≠ "" then
      fprint fptr ("set output '" ++ saveAs ++ "'\n") else fptr
  fptr

/-- Lines 193-199: the script written for a figure without series. -/
def plot_empty (fptr : Sink) : Sink :=
  fprint fptr
    ("set xrange [-1 : +1]\n" ++
     "set yrange [-1 : +1]\n" ++
     "$empty << EOD\n" ++
     "0 0\n" ++
     "EOD\n\n" ++
     "plot $empty with points notitle\n\n")

/-- Lines 204-206: title and axis labels. -/
def plot_labels (E : Externals F D) (fig : Figure F D) (fptr : Sink) : Sink :=
  let fptr := if fig.title_.empty = false then
      fprint fptr ("set title " ++ E.fmtText fig.title_ ++ "\n") else fptr
  let fptr := if fig.xlabel_.empty = false then
      fprint fptr ("set xlabel " ++ E.fmtText fig.xlabel_ ++ "\n") else fptr
  let fptr := if fig.ylabel_.empty = false then
      fprint fptr ("set ylabel " ++ E.fmtText fig.ylabel_ ++ "\n") else fptr
  fptr

/-- Lines 208-225: the range block. -/
def plot_ranges (E : Externals F D) (fig : Figure F D) (fptr : Sink) : Sink :=
  if fig.autoscale_x_ && fig.autoscale_y_ then
    fprint fptr "set autoscale\n"
  else if fig.autoscale_x_ then
    fprint fptr
      ("set autoscale x\n" ++
       "set yrange [" ++ E.fmtFloat fig.min_y_ ++ ":" ++ E.fmtFloat fig.max_y_ ++ "]\n")
  else if fig.autoscale_y_ then
    fprint fptr
      ("set xrange [" ++ E.fmtFloat fig.min_x_ ++ ":" ++ E.fmtFloat fig.max_x_ ++ "]\n" ++
       "set autoscale y\n")
  else
    fprint fptr
      ("set xrange [" ++ E.fmtFloat fig.min_x_ ++ ":" ++ E.fmtFloat fig.max_x_ ++ "]\n" ++
       "set yrange [" ++ E.fmtFloat fig.min_y_ ++ ":" ++ E.fmtFloat fig.max_y_ ++ "]\n")

/-- Lines 228-232: reversed and logarithmic axes. -/
def plot_reverse_log (E : Externals F D) (fig : Figure F D) (fptr : Sink) : Sink :=
  let fptr := if fig.reverse_x_ then fprint fptr "set xrange reverse\n" else fptr
  let fptr := if fig.reverse_y_ then fprint fptr "set yrange reverse\n" else fptr
  let fptr := if fig.log_x_ then
      fprint fptr ("set logscale x " ++ E.fmtFloat fig.log_x_base_ ++ "\n") else fptr
  let fptr := if fig.log_y_ then
      fprint fptr ("set logscale y " ++ E.fmtFloat fig.log_y_base_ ++ "\n") else fptr
  fptr

/-- Modelled from the spec: `c9::zip` of `zip_tuple.hpp`, which is not part of
the sources; "pairing each label with its corresponding value positionally
(label sequence and value sequence must be the same length; this is a
precondition, not checked)". For sequences of the same length the pairs are the
positional ones. For sequences of different lengths the specification leaves the
result open; it is the parameter `unequal`. -/
def c9zip {α β : Type} (unequal : List α → List β → List (α × β)) (xs : List α)
    (ys : List β) : List (α × β) :=
  if xs.length = ys.length then List.zip xs ys else unequal xs ys

/-- Lines 241-245: the body of the `zip` loop, with the flag `first`. -/
def plot_xtics_loop (E : Externals F D) : List (String × D) → Bool → Sink → Sink
  | [], _, fptr => fptr
  | (label, value) :: rest, first, fptr =>
    let fptr := fprint fptr
      ((if first then "" else ", ") ++ "\"" ++ label ++ "\" " ++ E.fmtDouble value)
    plot_xtics_loop E rest false fptr

/-- Lines 235-248: the tics directive. -/
def plot_xtics (E : Externals F D) (fig : Figure F D) (fptr : Sink) : Sink :=
  if fig.xtics_labels_.isEmpty = false then
    let fptr := fprint fptr "set xtics("
    let fptr := plot_xtics_loop E
      (c9zip E.zip_unequal fig.xtics_labels_ fig.xtics_values_) true fptr
    fprint fptr ")\n"
  else fptr

/-- Lines 251-256: `printSettings` of every series. -/
def plot_settings : List IPlot → Sink → Sink
  | [], fptr => fptr
  | plt :: rest, fptr => plot_settings rest (plt.printSettings fptr)

/-- Lines 259-265: `printData` of every series; the counter `i` of the source is
incremented and never read. -/
def plot_data : List IPlot → Nat → Sink → Sink
  | [], _, fptr => fptr
  | plt :: rest, i, fptr => plot_data rest (i + 1) (plt.printData fptr)

/-- Lines 271-280: the loop over `plot_itr`; `pos` is the distance of `plot_itr`
from `cbegin()`, the list is what remains from `plot_itr` to `cend()`. -/
def plot_commands_loop : List IPlot → Nat → Sink → Sink
  | [], _, fptr => fptr
  | plt :: next, pos, fptr =>
    let fptr := if pos ≠ 0 then fprint fptr "     " else fptr
    let fptr := plt.printPlot fptr
    let fptr := if next.isEmpty = false then fprint fptr ", \\" else fptr
    let fptr := fprint fptr "\n"
    plot_commands_loop next (pos + 1) fptr

/-- Lines 268-282: the plot command and the blank line after it. -/
def plot_commands (plots : List IPlot) (fptr : Sink) : Sink :=
  let fptr := if plots.isEmpty = false then fprint fptr "plot " else fptr
  let fptr := plot_commands_loop plots 0 fptr
  fprint fptr "\n"

/-- `Figure::plot(fptr, terminalType, saveAs)`: the series with the identities
the call leaves them with, and the stream after the call. -/
def Figure.plot (E : Externals F D) (fig : Figure F D) (fptr : Sink)
    (terminalType : TerminalType) (saveAs : String) : List IPlot × Sink :=
  let plots := plot_uids fig.plots_ 0
  let fptr := plot_header E fptr terminalType saveAs
  if plots.isEmpty then
    (plots, plot_empty fptr)
  else
    let fptr := plot_labels E fig fptr
    let fptr := plot_ranges E fig fptr
    let fptr := plot_reverse_log E fig fptr
    let fptr := plot_xtics E fig fptr
    let fptr := plot_settings plots fptr
    let fptr := plot_data plots 0 fptr
    let fptr := plot_commands plots fptr
    let fptr := if saveAs ≠ "" then fprint fptr "set output\n" else fptr
    (plots, fptr)

/-! ## `Figure::save` (lines 119-165): resolving the file name and kind -/

/-- Model of `std::string::ends_with`: `ending` is a suffix of `s`. -/
def ends_with (s ending : String) : Bool := ending.data.isSuffixOf s.data

/-- Lines 120-130 of `Figure::save`: the file name and the file kind the rest
of `save` works with. -/
def save_resolve (E : Externals F D) (fig : Figure F D) (filename : String)
    (filetype : OutputFileType) : String × OutputFileType :=
  let filename := if filename = "" then fig.title_.toStdString else filename
  if filetype = OutputFileType.NONE then
    let filetype := E.filetype_from_filename filename
    if filetype = OutputFileType.NONE then
      (filename ++ ".png", OutputFileType.png)
    else
      (filename, filetype)
  else if ends_with filename (E.to_file_ending filetype) = false then
    (filename ++ E.to_file_ending filetype, filetype)
  else
    (filename, filetype)

/-! ## Concrete instances used to evaluate the definitions -/

/-- Sample tables and formatters: numbers are printed in decimal. The sample
figures have as many tic values as tic labels, so `zip_unequal` is never
reached. -/
def sampleExternals : Externals Int Nat where
  to_command := fun t => match t with
    | TerminalType.NONE => ""
    | TerminalType.other 0 => "pngcairo"
    | TerminalType.other _ => "qt"
  to_file_ending := fun k => match k with
    | OutputFileType.NONE => ""
    | OutputFileType.gp => ".gp"
    | OutputFileType.png => ".png"
    | OutputFileType.other _ => ".svg"
  to_terminal := fun k => match k with
    | OutputFileType.png => TerminalType.other 0
    | OutputFileType.other _ => TerminalType.other 1
    | _ => TerminalType.NONE
  filetype_from_filename := fun name =>
    if ends_with name ".gp" then OutputFileType.gp
    else if ends_with name ".png" then OutputFileType.png
    else if ends_with name ".svg" then OutputFileType.other 0
    else OutputFileType.NONE
  fmtText := fun t => "\"" ++ t.str ++ "\""
  fmtFloat := fun x => toString x
  fmtDouble := fun x => toString x
  castDouble := fun i => i
  zip_unequal := fun _ _ => []

/-- `Figure(std::string title_str)` (lines 17-21), the members the constructor
does not mention set to sample values. -/
def sampleFigure (title_str : String) : Figure Int Nat where
  title_ := { str := title_str, height := 20, bold := true }
  xlabel_ := { str := "", height := 0, bold := false }
  ylabel_ := { str := "", height := 0, bold := false }
  min_x_ := -1
  max_x_ := 1
  min_y_ := -1
  max_y_ := 1
  log_x_base_ := 10
  log_y_base_ := 10
  reverse_x_ := false
  reverse_y_ := false
  autoscale_x_ := true
  autoscale_y_ := true
  log_x_ := false
  log_y_ := false
  show_legend_ := false
  gnuplot_pipe_ := none
  plots_ := []
  xtics_labels_ := []
  xtics_values_ := []

/-- A sample series: one style line, a data block named after the identity,
and a clause carrying the legend label. The identity it starts with is 7. -/
def sampleSeries (label : String) : IPlot where
  uid_ := 7
  settings := fun _ => "set style fill solid\n"
  data := fun uid => "$d" ++ toString uid ++ " << EOD\n1 2\nEOD\n"
  clause := fun uid => "$d" ++ toString uid ++ " with boxes title \"" ++ label ++ "\""

/-- The first figure of `examples/boxes.cpp` (lines 12-14), with sample series
in place of `boxes(...)`. -/
def boxesFigure : Figure Int Nat :=
  ((sampleFigure "Boxes").add (sampleSeries "boxes1")).add (sampleSeries "boxes2")

/-- The second figure of `examples/boxes.cpp` (lines 19-21). -/
def boxesTextFigure : Figure Int Nat :=
  (Figure.xtics sampleExternals (sampleFigure "Boxes with text")
    ["house", "bottel", "basket", "number", "apple"]).add (sampleSeries "boxes with names")

/-! ## The script in closed form, following the specification -/

/-- The text `printSettings` writes for the series. -/
def IPlot.settingsText (p : IPlot) : String := p.printSettings ""

/-- The text `printData` writes for the series. -/
def IPlot.dataText (p : IPlot) : String := p.printData ""

/-- The text `printPlot` writes for the series: its plot clause. -/
def IPlot.clauseText (p : IPlot) : String := p.printPlot ""

/-- Step 2: "If a terminal was selected, emit a select-terminal directive." -/
def spec_terminal (E : Externals F D) (terminalType : TerminalType) : String :=
  if terminalType = TerminalType.NONE then ""
  else "set terminal " ++ E.to_command terminalType ++ "\n"

/-- Step 3: "If a save-as filename was given, emit an output-to-file directive." -/
def spec_output (saveAs : String) : String :=
  if saveAs = "" then "" else "set output '" ++ saveAs ++ "'\n"

/-- Step 4: the fixed script of a figure without series. -/
def spec_fallback : String :=
  "set xrange [-1 : +1]\nset yrange [-1 : +1]\n$empty << EOD\n0 0\nEOD\n\nplot $empty with points notitle\n\n"

/-- Step 5: "title/x-label/y-label directives, each only if the corresponding
label is non-empty". -/
def spec_labels (E : Externals F D) (fig : Figure F D) : String :=
  (if fig.title_.str = "" then "" else "set title " ++ E.fmtText fig.title_ ++ "\n") ++
  (if fig.xlabel_.str = "" then "" else "set xlabel " ++ E.fmtText fig.xlabel_ ++ "\n") ++
  (if fig.ylabel_.str = "" then "" else "set ylabel " ++ E.fmtText fig.ylabel_ ++ "\n")

/-- The directives a range block is made of. -/
inductive RangeDirective (F : Type) where
  | autoscale
  | autoscale_x
  | autoscale_y
  | xrange (min max : F)
  | yrange (min max : F)

/-- The script line of a range directive. -/
def RangeDirective.text (E : Externals F D) : RangeDirective F → String
  | .autoscale => "set autoscale\n"
  | .autoscale_x => "set autoscale x\n"
  | .autoscale_y => "set autoscale y\n"
  | .xrange min max => "set xrange [" ++ E.fmtFloat min ++ ":" ++ E.fmtFloat max ++ "]\n"
  | .yrange min max => "set yrange [" ++ E.fmtFloat min ++ ":" ++ E.fmtFloat max ++ "]\n"

/-- The directive autoscales the x axis. -/
def RangeDirective.autoscalesX : RangeDirective F → Bool
  | .autoscale => true
  | .autoscale_x => true
  | _ => false

/-- The directive autoscales the y axis. -/
def RangeDirective.autoscalesY : RangeDirective F → Bool
  | .autoscale => true
  | .autoscale_y => true
  | _ => false

/-- The directive gives the x axis an explicit `[min:max]` range. -/
def RangeDirective.explicitX : RangeDirective F → Bool
  | .xrange _ _ => true
  | _ => false

/-- The directive gives the y axis an explicit `[min:max]` range. -/
def RangeDirective.explicitY : RangeDirective F → Bool
  | .yrange _ _ => true
  | _ => false

/-- Step 6: "both → single autoscale-both-axes directive; x-only → autoscale x +
explicit y-range; y-only → explicit x-range + autoscale y; neither → explicit
x-range + explicit y-range". -/
def spec_range_block (fig : Figure F D) : List (RangeDirective F) :=
  match fig.autoscale_x_, fig.autoscale_y_ with
  | true, true => [.autoscale]
  | true, false => [.autoscale_x, .yrange fig.min_y_ fig.max_y_]
  | false, true => [.xrange fig.min_x_ fig.max_x_, .autoscale_y]
  | false, false => [.xrange fig.min_x_ fig.max_x_, .yrange fig.min_y_ fig.max_y_]

/-- The text of the range block. -/
def spec_ranges (E : Externals F D) (fig : Figure F D) : String :=
  String.join ((spec_range_block fig).map (RangeDirective.text E))

/-- Step 7: the reverse-range directives. -/
def spec_reverse (fig : Figure F D) : String :=
  (if fig.reverse_x_ then "set xrange reverse\n" else "") ++
  (if fig.reverse_y_ then "set yrange reverse\n" else "")

/-- Step 8: the logarithmic-scale directives with the base of the axis. -/
def spec_logscale (E : Externals F D) (fig : Figure F D) : String :=
  (if fig.log_x_ then "set logscale x " ++ E.fmtFloat fig.log_x_base_ ++ "\n" else "") ++
  (if fig.log_y_ then "set logscale y " ++ E.fmtFloat fig.log_y_base_ ++ "\n" else "")

/-- One `"label" value` pair of the tics directive. -/
def spec_tic_pair (label value : String) : String := "\"" ++ label ++ "\" " ++ value

/-- The tics directive for a list of `(label, formatted value)` pairs:
`set xtics("l0" v0, "l1" v1, ...)`. -/
def spec_tics_directive (pairs : List (String × String)) : String :=
  "set xtics(" ++
    String.intercalate ", " (pairs.map fun lv => spec_tic_pair lv.1 lv.2) ++ ")\n"

/-- Step 9: "If the tic-label sequence is non-empty, emit a single set-tics
directive built by pairing each label with its corresponding value
positionally (label sequence and value sequence must be the same length; this
is a precondition, not checked)". -/
def spec_tics (E : Externals F D) (fig : Figure F D) : String :=
  if fig.xtics_labels_ = [] then ""
  else spec_tics_directive
    ((c9zip E.zip_unequal fig.xtics_labels_ fig.xtics_values_).map
      fun lv => (lv.1, E.fmtDouble lv.2))

/-- Steps 2, 3 and 5 to 9: everything before the first series' settings. -/
def spec_figure_part (E : Externals F D) (fig : Figure F D) (terminalType : TerminalType)
    (saveAs : String) : String :=
  spec_terminal E terminalType ++ spec_output saveAs ++ spec_labels E fig ++
    spec_ranges E fig ++ spec_reverse fig ++ spec_logscale E fig ++ spec_tics E fig

/-- Step 12: "literal `plot ` followed by one clause per series, clauses after
the first preceded by 5 spaces of alignment, all but the last clause followed
by `, \` then newline, final clause followed by newline, then a blank line". -/
def spec_plot_command (clauses : List String) : String :=
  "plot " ++ String.intercalate (", \\" ++ "\n" ++ "     ") clauses ++ "\n" ++ "\n"

/-- Steps 10 to 12: all settings, then all data, then the plot command. -/
def spec_series (plots : List IPlot) : String :=
  String.join (plots.map IPlot.settingsText) ++ String.join (plots.map IPlot.dataText) ++
    spec_plot_command (plots.map IPlot.clauseText)

/-- Step 13: the directive resetting the output. -/
def spec_reset (saveAs : String) : String :=
  if saveAs = "" then "" else "set output\n"

/-! ## Sequences of tics calls -/

/-- One call that sets the tics: `xtics(labels)` or `xtics(labels, values)`. -/
inductive TicsCall (D : Type) where
  | labels (tic_labels : List String)
  | labelsValues (tic_labels : List String) (tic_values : List D)

/-- The figure after one tics call. -/
def TicsCall.run (E : Externals F D) (fig : Figure F D) : TicsCall D → Figure F D
  | .labels tic_labels => fig.xtics E tic_labels
  | .labelsValues tic_labels tic_values => fig.xtics2 tic_labels tic_values

/-- The figure after a sequence of tics calls, first call first. -/
def runTicsCalls (E : Externals F D) (fig : Figure F D) (calls : List (TicsCall D)) :
    Figure F D :=
  calls.foldl (TicsCall.run E) fig

/-! ## Streams, subprocesses and the calls that reach them -/

/-- What a non-null `FILE*` of `Figure.cpp` points to: `stdout`, a file opened
by `fopen`, or the input of a subprocess started by `popen`. -/
inductive FileStream where
  | stdout
  | file (filename : String)
  | pipe (id : Nat)
deriving DecidableEq, Repr

/-- A `FILE*`; `none` is `nullptr`. -/
abbrev FilePtr := Option FileStream

/-- The calls of `Figure.cpp` into the C library and into `Figure::plot`, as
they are logged: the arguments and, where there is one, the result. -/
inductive Event where
  | fopen (filename : String) (result : FilePtr)
  | fclose (fptr : FilePtr)
  | popen (command : String) (result : Option Nat)
  | pclose (pipe : Nat) (status : Int)
  | plot (fptr : FilePtr) (terminalType : TerminalType) (saveAs : String)
deriving DecidableEq, Repr

/-- The event is a `pclose` call. -/
def Event.isPclose : Event → Bool
  | .pclose _ _ => true
  | _ => false

/-- The event concerns the subprocess `id`: it is the `popen` that returned it,
a `pclose` of it, or a `plot` into it. -/
def Event.touchesPipe (id : Nat) : Event → Bool
  | .popen _ result => decide (result = some id)
  | .pclose pipe _ => decide (pipe = id)
  | .plot fptr _ _ => decide (fptr = some (FileStream.pipe id))
  | .fclose fptr => decide (fptr = some (FileStream.pipe id))
  | .fopen _ result => decide (result = some (FileStream.pipe id))

/-- What the operating system decides: whether `fopen` of a name succeeds,
whether the spawn with a given number (counted from 0) yields a handle, and the
exit status `pclose` reports for a subprocess. -/
structure Oracle where
  fopen_ok : String → Bool
  popen_ok : Nat → Bool
  pclose_status : Nat → Int

/-- The state outside the figure: the log of calls, the text each stream holds,
and the number of `popen` calls made so far. -/
structure Sys where
  events : List Event
  content : FileStream → Sink
  spawned : Nat

/-- Model of `fopen(filename, "w")`: on success the file is emptied. -/
def sys_fopen (O : Oracle) (sys : Sys) (filename : String) : FilePtr × Sys :=
  if O.fopen_ok filename then
    (some (FileStream.file filename),
      { sys with
        events := sys.events ++ [Event.fopen filename (some (FileStream.file filename))]
        content := Function.update sys.content (FileStream.file filename) "" })
  else
    (none, { sys with events := sys.events ++ [Event.fopen filename none] })

/-- Model of `fclose(fptr)`. -/
def sys_fclose (sys : Sys) (fptr : FilePtr) : Sys :=
  { sys with events := sys.events ++ [Event.fclose fptr] }

/-- Model of `popen(command, "w")`: the handle of a new subprocess, or `nullptr`. -/
def sys_popen (O : Oracle) (sys : Sys) (command : String) : Option Nat × Sys :=
  let result := if O.popen_ok sys.spawned then some sys.spawned else none
  (result,
    { sys with
      events := sys.events ++ [Event.popen command result]
      spawned := sys.spawned + 1 })

/-- Model of `pclose(fptr)` on the handle of a subprocess: its exit status. -/
def sys_pclose (O : Oracle) (sys : Sys) (pipe : Nat) : Int × Sys :=
  (O.pclose_status pipe,
    { sys with events := sys.events ++ [Event.pclose pipe (O.pclose_status pipe)] })

/-- Modelled from the spec: the default argument of the parameter `saveAs` of
`Figure::plot` is given in a header that is not part of the sources; the calls
with two arguments render with "no save-as filename". -/
def plot_default_saveAs : String := ""

/-- How a call of `save` or `show` ends: it returns, it throws
`std::runtime_error(message)`, or it runs into undefined behaviour, after which
nothing of the call is executed any more. -/
inductive Outcome where
  | ok
  | error (message : String)
  | undefined
deriving DecidableEq, Repr

/-- The call `this->plot(fptr, terminalType, saveAs)` on a `FILE*`: the series
keep the identities of the call and the stream holds what `plot` wrote. Every
path of `plot` writes to `fptr`, and `plot` does not test it: on `nullptr` the
call is logged and its outcome is undefined behaviour. -/
def Figure.plot_to (E : Externals F D) (fig : Figure F D) (sys : Sys) (fptr : FilePtr)
    (terminalType : TerminalType) (saveAs : String) : Outcome × Figure F D × Sys :=
  match fptr with
  | some stream =>
    (Outcome.ok,
      { fig with plots_ := (fig.plot E (sys.content stream) terminalType saveAs).1 },
      { sys with
        events := sys.events ++ [Event.plot fptr terminalType saveAs]
        content := Function.update sys.content stream
          (fig.plot E (sys.content stream) terminalType saveAs).2 })
  | none =>
    (Outcome.undefined, fig,
      { sys with events := sys.events ++ [Event.plot fptr terminalType saveAs] })

/-! ## The persistent subprocess (lines 61-88) -/

/-- `Figure::close_pipe` (lines 61-73), also the body of `~Figure` (lines 29-31):
the result is the exception thrown, if any, the figure and the state outside. -/
def Figure.close_pipe (O : Oracle) (fig : Figure F D) (sys : Sys) :
    Except String Unit × Figure F D × Sys :=
  match fig.gnuplot_pipe_ with
  | some pipe =>
    let status := (sys_pclose O sys pipe).1
    let sys := (sys_pclose O sys pipe).2
    if status ≠ 0 then
      (Except.error "Could not close the pipe stream", fig, sys)
    else
      (Except.ok (), fig, sys)
  | none => (Except.ok (), fig, sys)

/-- `Figure::gnuplot_pipe` (lines 75-84): the handle returned, the figure and
the state outside. -/
def Figure.gnuplot_pipe (O : Oracle) (fig : Figure F D) (sys : Sys) :
    Option Nat × Figure F D × Sys :=
  if fig.gnuplot_pipe_ = none then
    let result := (sys_popen O sys "gnuplot -persist").1
    let sys := (sys_popen O sys "gnuplot -persist").2
    (result, { fig with gnuplot_pipe_ := result }, sys)
  else
    (fig.gnuplot_pipe_, fig, sys)

/-- `Figure::close` (lines 86-88): `this->gnuplot_.close()`. The member
`gnuplot_` is declared in a header that is not part of the sources; its `close`
is the parameter `gnuplot_close`, acting on the state outside the figure. The
member `gnuplot_pipe_` is not touched. -/
def Figure.close (gnuplot_close : Sys → Except String Unit × Sys) (fig : Figure F D)
    (sys : Sys) : Except String Unit × Figure F D × Sys :=
  ((gnuplot_close sys).1, fig, (gnuplot_close sys).2)

/-! ## `Figure::save` and `Figure::show` (lines 119-181) -/

/-- `Figure::save(filename, filetype, terminalType)` (lines 119-165): how the
call ends, the figure and the state outside. The result of `fopen` is not
tested (lines 137-138); the result of `popen` is (lines 147-149). -/
def Figure.save (E : Externals F D) (O : Oracle) (fig : Figure F D) (sys : Sys)
    (filename : String) (filetype : OutputFileType) (terminalType : TerminalType) :
    Outcome × Figure F D × Sys :=
  let resolved := save_resolve E fig filename filetype
  let filename := resolved.1
  let filetype := resolved.2
  let terminalType :=
    if terminalType = TerminalType.NONE then E.to_terminal filetype else terminalType
  if filetype = OutputFileType.gp then
    let fptr := (sys_fopen O sys filename).1
    let sys := (sys_fopen O sys filename).2
    let rendered := fig.plot_to E sys fptr terminalType plot_default_saveAs
    if rendered.1 = Outcome.ok then
      let sys := sys_fclose rendered.2.2 fptr
      (Outcome.ok, rendered.2.1, sys)
    else
      rendered
  else
    let fptr := (sys_popen O sys "gnuplot -persist").1
    let sys := (sys_popen O sys "gnuplot -persist").2
    match fptr with
    | none => (Outcome.error "Could not open the pipe stream: 'gnuplot -persist'", fig, sys)
    | some pipe =>
      let rendered := fig.plot_to E sys (some (FileStream.pipe pipe)) terminalType filename
      if rendered.1 = Outcome.ok then
        let status := (sys_pclose O rendered.2.2 pipe).1
        let sys := (sys_pclose O rendered.2.2 pipe).2
        if status ≠ 0 then
          (Outcome.error "Could not close the pipe stream", rendered.2.1, sys)
        else
          (Outcome.ok, rendered.2.1, sys)
      else
        rendered

/-- `Figure::show(TerminalType)` (lines 177-181): the result of `gnuplot_pipe()`
goes to `plot` untested. -/
def Figure.show (E : Externals F D) (O : Oracle) (fig : Figure F D) (sys : Sys)
    (terminalType : TerminalType) : Outcome × Figure F D × Sys :=
  let piped := fig.gnuplot_pipe O sys
  let fptr : FilePtr := piped.1.map FileStream.pipe
  piped.2.1.plot_to E piped.2.2 fptr terminalType plot_default_saveAs

/-- `Figure::show(OutputFileType)` (lines 168-175). -/
def Figure.show_filetype (E : Externals F D) (O : Oracle) (fig : Figure F D) (sys : Sys)
    (filetype : OutputFileType) : Outcome × Figure F D × Sys :=
  if filetype = OutputFileType.gp then
    fig.plot_to E sys (some FileStream.stdout) TerminalType.NONE plot_default_saveAs
  else
    fig.show E O sys (E.to_terminal filetype)

/-- A sequence of `show(terminalType)` calls, first call first; a call that does
not return ends the sequence. -/
def run_shows (E : Externals F D) (O : Oracle) (fig : Figure F D) (sys : Sys) :
    List TerminalType → Figure F D × Sys
  | [] => (fig, sys)
  | terminalType :: rest =>
    if (fig.show E O sys terminalType).1 = Outcome.ok then
      run_shows E O (fig.show E O sys terminalType).2.1 (fig.show E O sys terminalType).2.2
        rest
    else
      ((fig.show E O sys terminalType).2.1, (fig.show E O sys terminalType).2.2)

/-- The exception of a result, if one was thrown. -/
def thrown (result : Outcome) : Option String :=
  match result with
  | Outcome.error message => some message
  | _ => none

/-- An operating system in which every `fopen` and every spawn succeeds and
every subprocess exits with status 0. -/
def sampleOracle : Oracle where
  fopen_ok := fun _ => true
  popen_ok := fun _ => true
  pclose_status := fun _ => 0

/-- An operating system in which no subprocess can be spawned. -/
def noSpawnOracle : Oracle where
  fopen_ok := fun _ => true
  popen_ok := fun _ => false
  pclose_status := fun _ => 0

/-- The state outside the figure at program start: nothing logged, every
stream empty, nothing spawned. -/
def sampleSys : Sys where
  events := []
  content := fun _ => ""
  spawned := 0

/-! ## Lemmas on text -/

theorem fprint_eq (fptr text : String) : fprint fptr text = fptr ++ text := rfl

theorem c9zip_eq_zip {α β : Type} (unequal : List α → List β → List (α × β)) (xs : List α)
    (ys : List β) (h : xs.length = ys.length) : c9zip unequal xs ys = List.zip xs ys := by
  simp [c9zip, h]

theorem foldl_append_eq_join (l : List String) (acc : String) :
    List.foldl (fun r s => r ++ s) acc l = acc ++ String.join l := by
  induction l generalizing acc with
  | nil => simp [-String.reduceAppend, String.join]
  | cons a l ih =>
    simp only [List.foldl_cons, String.join]
    rw [ih (acc ++ a), ih ("" ++ a)]
    simp [-String.reduceAppend, String.append_assoc]

theorem join_nil : String.join [] = "" := rfl

theorem join_cons (a : String) (l : List String) :
    String.join (a :: l) = a ++ String.join l := by
  simp only [String.join, List.foldl_cons]
  rw [foldl_append_eq_join]
  simp [-String.reduceAppend, String.join]

theorem intercalate_go_eq (acc s : String) (l : List String) :
    String.intercalate.go acc s l = acc ++ String.join (l.map fun a => s ++ a) := by
  induction l generalizing acc with
  | nil => simp [-String.reduceAppend, String.intercalate.go, join_nil]
  | cons a l ih =>
    simp only [String.intercalate.go, List.map_cons, join_cons]
    rw [ih]
    simp [-String.reduceAppend, String.append_assoc]

theorem intercalate_cons (s a : String) (l : List String) :
    String.intercalate s (a :: l) = a ++ String.join (l.map fun b => s ++ b) := by
  simp only [String.intercalate]
  exact intercalate_go_eq a s l

/-! ## Each step of `plot` in closed form -/

theorem printSettings_eq (p : IPlot) (fptr : Sink) :
    p.printSettings fptr = fptr ++ p.settingsText := by
  simp [-String.reduceAppend, IPlot.printSettings, IPlot.settingsText, fprint]

theorem printData_eq (p : IPlot) (fptr : Sink) :
    p.printData fptr = fptr ++ p.dataText := by
  simp [-String.reduceAppend, IPlot.printData, IPlot.dataText, fprint]

theorem printPlot_eq (p : IPlot) (fptr : Sink) :
    p.printPlot fptr = fptr ++ p.clauseText := by
  simp [-String.reduceAppend, IPlot.printPlot, IPlot.clauseText, fprint]

theorem plot_uids_length (plots : List IPlot) (i : Nat) :
    (plot_uids plots i).length = plots.length := by
  induction plots generalizing i with
  | nil => rfl
  | cons p rest ih => simp [-String.reduceAppend, plot_uids, ih]

theorem plot_uids_map_uid (plots : List IPlot) (i : Nat) :
    (plot_uids plots i).map IPlot.uid_ = List.range' i plots.length := by
  induction plots generalizing i with
  | nil => rfl
  | cons p rest ih => simp [plot_uids, IPlot.uid, ih, List.range'_succ]

theorem plot_uids_map_settings (plots : List IPlot) (i : Nat) :
    (plot_uids plots i).map IPlot.settings = plots.map IPlot.settings := by
  induction plots generalizing i with
  | nil => rfl
  | cons p rest ih => simp [plot_uids, IPlot.uid, ih]

theorem plot_uids_map_data (plots : List IPlot) (i : Nat) :
    (plot_uids plots i).map IPlot.data = plots.map IPlot.data := by
  induction plots generalizing i with
  | nil => rfl
  | cons p rest ih => simp [plot_uids, IPlot.uid, ih]

theorem plot_uids_map_clause (plots : List IPlot) (i : Nat) :
    (plot_uids plots i).map IPlot.clause = plots.map IPlot.clause := by
  induction plots generalizing i with
  | nil => rfl
  | cons p rest ih => simp [plot_uids, IPlot.uid, ih]

theorem plot_header_eq (E : Externals F D) (fptr : Sink) (t : TerminalType) (saveAs : String) :
    plot_header E fptr t saveAs = fptr ++ spec_terminal E t ++ spec_output saveAs := by
  unfold plot_header spec_terminal spec_output
  by_cases ht : t = TerminalType.NONE <;> by_cases hs : saveAs = "" <;>
    simp [-String.reduceAppend, ht, hs, fprint, String.append_assoc]

theorem plot_labels_eq (E : Externals F D) (fig : Figure F D) (fptr : Sink) :
    plot_labels E fig fptr = fptr ++ spec_labels E fig := by
  unfold plot_labels spec_labels Text.empty
  by_cases h1 : fig.title_.str = "" <;> by_cases h2 : fig.xlabel_.str = "" <;>
    by_cases h3 : fig.ylabel_.str = "" <;>
    simp [-String.reduceAppend, h1, h2, h3, fprint, String.append_assoc]

theorem plot_ranges_eq (E : Externals F D) (fig : Figure F D) (fptr : Sink) :
    plot_ranges E fig fptr = fptr ++ spec_ranges E fig := by
  unfold plot_ranges spec_ranges spec_range_block
  cases hx : fig.autoscale_x_ <;> cases hy : fig.autoscale_y_ <;>
    simp [-String.reduceAppend, fprint, RangeDirective.text, join_cons, join_nil, String.append_assoc]

theorem plot_reverse_log_eq (E : Externals F D) (fig : Figure F D) (fptr : Sink) :
    plot_reverse_log E fig fptr = fptr ++ spec_reverse fig ++ spec_logscale E fig := by
  unfold plot_reverse_log spec_reverse spec_logscale
  cases fig.reverse_x_ <;> cases fig.reverse_y_ <;> cases fig.log_x_ <;> cases fig.log_y_ <;>
    simp [-String.reduceAppend, fprint, String.append_assoc]

theorem plot_xtics_loop_rest (E : Externals F D) (pairs : List (String × D)) (fptr : Sink) :
    plot_xtics_loop E pairs false fptr =
      fptr ++ String.join (pairs.map fun lv => ", " ++ spec_tic_pair lv.1 (E.fmtDouble lv.2)) := by
  induction pairs generalizing fptr with
  | nil => simp [-String.reduceAppend, plot_xtics_loop, join_nil]
  | cons lv rest ih =>
    obtain ⟨label, value⟩ := lv
    simp only [plot_xtics_loop, List.map_cons, join_cons]
    rw [ih]
    simp [-String.reduceAppend, fprint, spec_tic_pair, String.append_assoc]

theorem plot_xtics_loop_eq (E : Externals F D) (pairs : List (String × D)) (fptr : Sink) :
    plot_xtics_loop E pairs true fptr =
      fptr ++ String.intercalate ", "
        (pairs.map fun lv => spec_tic_pair lv.1 (E.fmtDouble lv.2)) := by
  cases pairs with
  | nil => simp [-String.reduceAppend, plot_xtics_loop, String.intercalate]
  | cons lv rest =>
    obtain ⟨label, value⟩ := lv
    simp only [plot_xtics_loop, List.map_cons, intercalate_cons]
    rw [plot_xtics_loop_rest]
    simp [-String.reduceAppend, fprint, spec_tic_pair, String.append_assoc, List.map_map, Function.comp_def]

theorem plot_xtics_eq (E : Externals F D) (fig : Figure F D) (fptr : Sink) :
    plot_xtics E fig fptr = fptr ++ spec_tics E fig := by
  unfold plot_xtics spec_tics spec_tics_directive
  cases h : fig.xtics_labels_ with
  | nil => simp
  | cons l ls =>
    simp only [List.isEmpty_cons, if_true, reduceCtorEq, if_false]
    rw [plot_xtics_loop_eq]
    simp [-String.reduceAppend, fprint, String.append_assoc, List.map_map, Function.comp_def]

theorem plot_settings_eq (plots : List IPlot) (fptr : Sink) :
    plot_settings plots fptr = fptr ++ String.join (plots.map IPlot.settingsText) := by
  induction plots generalizing fptr with
  | nil => simp [-String.reduceAppend, plot_settings, join_nil]
  | cons p rest ih =>
    simp only [plot_settings, List.map_cons, join_cons]
    rw [ih, printSettings_eq, String.append_assoc]

theorem plot_data_eq (plots : List IPlot) (i : Nat) (fptr : Sink) :
    plot_data plots i fptr = fptr ++ String.join (plots.map IPlot.dataText) := by
  induction plots generalizing fptr i with
  | nil => simp [-String.reduceAppend, plot_data, join_nil]
  | cons p rest ih =>
    simp only [plot_data, List.map_cons, join_cons]
    rw [ih, printData_eq, String.append_assoc]

theorem plot_commands_loop_eq (p : IPlot) (rest : List IPlot) (pos : Nat) (fptr : Sink) :
    plot_commands_loop (p :: rest) pos fptr =
      fptr ++ (if pos = 0 then "" else "     ") ++ p.clauseText ++
        String.join (rest.map fun q => (", \\" ++ "\n" ++ "     ") ++ q.clauseText) ++ "\n" := by
  induction rest generalizing p pos fptr with
  | nil =>
    by_cases hp : pos = 0 <;>
      simp [-String.reduceAppend, plot_commands_loop, hp, fprint, printPlot_eq, join_nil, String.append_assoc]
  | cons q rest ih =>
    simp only [plot_commands_loop] at ih ⊢
    rw [ih]
    by_cases hp : pos = 0 <;>
      simp [-String.reduceAppend, hp, fprint, printPlot_eq, join_cons, String.append_assoc]

theorem plot_commands_eq (p : IPlot) (rest : List IPlot) (fptr : Sink) :
    plot_commands (p :: rest) fptr =
      fptr ++ spec_plot_command ((p :: rest).map IPlot.clauseText) := by
  unfold plot_commands spec_plot_command
  simp only [List.isEmpty_cons, if_true, List.map_cons, intercalate_cons]
  rw [plot_commands_loop_eq]
  simp [-String.reduceAppend, fprint, String.append_assoc, List.map_map, Function.comp_def]

/-- The script of a figure with at least one series, in closed form. -/
theorem plot_nonempty_eq (E : Externals F D) (fig : Figure F D) (fptr : Sink)
    (t : TerminalType) (saveAs : String) (h : fig.plots_ ≠ []) :
    fig.plot E fptr t saveAs =
      (plot_uids fig.plots_ 0,
        fptr ++ spec_figure_part E fig t saveAs ++ spec_series (plot_uids fig.plots_ 0) ++
          spec_reset saveAs) := by
  obtain ⟨p, rest, hpr⟩ := List.exists_cons_of_ne_nil h
  unfold Figure.plot spec_figure_part spec_series spec_reset
  rw [hpr]
  simp only [plot_uids, List.isEmpty_cons, Bool.false_eq_true, if_false]
  rw [plot_commands_eq, plot_data_eq, plot_settings_eq, plot_xtics_eq, plot_reverse_log_eq,
    plot_ranges_eq, plot_labels_eq, plot_header_eq]
  by_cases hs : saveAs = "" <;> simp [-String.reduceAppend, hs, fprint, String.append_assoc]

/-- The script of a figure without series, in closed form. -/
theorem plot_empty_eq (E : Externals F D) (fig : Figure F D) (fptr : Sink)
    (t : TerminalType) (saveAs : String) (h : fig.plots_ = []) :
    fig.plot E fptr t saveAs =
      ([], fptr ++ spec_terminal E t ++ spec_output saveAs ++ spec_fallback) := by
  unfold Figure.plot
  rw [h]
  simp only [plot_uids, List.isEmpty_nil, if_true]
  rw [plot_header_eq]
  rfl

theorem plot_fst (E : Externals F D) (fig : Figure F D) (fptr : Sink)
    (t : TerminalType) (saveAs : String) :
    (fig.plot E fptr t saveAs).1 = plot_uids fig.plots_ 0 := by
  by_cases h : (plot_uids fig.plots_ 0).isEmpty = true <;> simp [Figure.plot, h]

theorem plot_snd_nonempty (E : Externals F D) (fig : Figure F D) (fptr : Sink)
    (t : TerminalType) (saveAs : String) (h : fig.plots_ ≠ []) :
    (fig.plot E fptr t saveAs).2 =
      fptr ++ spec_figure_part E fig t saveAs ++ spec_series (plot_uids fig.plots_ 0) ++
        spec_reset saveAs := by
  rw [plot_nonempty_eq E fig fptr t saveAs h]

theorem plot_uids_ne_nil (plots : List IPlot) (i : Nat) (h : plots ≠ []) :
    plot_uids plots i ≠ [] := by
  cases plots with
  | nil => exact absurd rfl h
  | cons p rest => simp [plot_uids]

/-! ## The claims -/

/-- C1: after `Figure::plot` the series at zero-based position `k` has identity
`k`, for every position of the collection, so the identities of the series are
0, 1, ..., n-1 and no two positions share one; in the first figure of
`examples/boxes.cpp` the two series get 0 and 1, whatever they carried before. -/
theorem C1_plot_uids_positions (E : Externals F D) (fig : Figure F D) (fptr : Sink)
    (t : TerminalType) (saveAs : String) :
    (fig.plot E fptr t saveAs).1.length = fig.plots_.length ∧
    (fig.plot E fptr t saveAs).1.map IPlot.uid_ = List.range fig.plots_.length ∧
    ((fig.plot E fptr t saveAs).1.map IPlot.uid_).Nodup ∧
    boxesFigure.plots_.map IPlot.uid_ = [7, 7] ∧
    (boxesFigure.plot sampleExternals "" TerminalType.NONE "").1.map IPlot.uid_ = [0, 1] := by
  have h : (fig.plot E fptr t saveAs).1.map IPlot.uid_ = List.range fig.plots_.length := by
    rw [plot_fst, plot_uids_map_uid, List.range_eq_range']
  refine ⟨?_, h, ?_, by decide, by decide⟩
  · rw [plot_fst, plot_uids_length]
  · rw [h]
    exact List.nodup_range _

/-- C2: for a figure with at least two series, the series part of the script
written by `Figure::plot` is the settings of all series in collection order,
then the data of all series in collection order, then the plot command built
from the clauses in collection order; the series are those of the collection,
position by position. -/
theorem C2_series_order (E : Externals F D) (fig : Figure F D) (fptr : Sink)
    (t : TerminalType) (saveAs : String) (h : 2 ≤ fig.plots_.length) :
    (fig.plot E fptr t saveAs).2 =
      fptr ++ spec_figure_part E fig t saveAs ++
        (String.join ((fig.plot E fptr t saveAs).1.map IPlot.settingsText) ++
          String.join ((fig.plot E fptr t saveAs).1.map IPlot.dataText) ++
          spec_plot_command ((fig.plot E fptr t saveAs).1.map IPlot.clauseText)) ++
        spec_reset saveAs ∧
    (fig.plot E fptr t saveAs).1.map IPlot.settings = fig.plots_.map IPlot.settings ∧
    (fig.plot E fptr t saveAs).1.map IPlot.data = fig.plots_.map IPlot.data ∧
    (fig.plot E fptr t saveAs).1.map IPlot.clause = fig.plots_.map IPlot.clause := by
  have hne : fig.plots_ ≠ [] := by
    intro h0
    rw [h0] at h
    simp at h
  refine ⟨?_, ?_, ?_, ?_⟩
  · rw [plot_snd_nonempty E fig fptr t saveAs hne, plot_fst]
    simp only [spec_series]
  · rw [plot_fst, plot_uids_map_settings]
  · rw [plot_fst, plot_uids_map_data]
  · rw [plot_fst, plot_uids_map_clause]

/-- C2 at the first figure of `examples/boxes.cpp`: the whole script. -/
theorem C2_series_order_witness :
    2 ≤ boxesFigure.plots_.length ∧
    (boxesFigure.plot sampleExternals "" TerminalType.NONE "").2 =
      "set title \"Boxes\"\nset autoscale\n" ++
      "set style fill solid\nset style fill solid\n" ++
      "$d0 << EOD\n1 2\nEOD\n$d1 << EOD\n1 2\nEOD\n" ++
      "plot $d0 with boxes title \"boxes1\", \\\n     $d1 with boxes title \"boxes2\"\n\n" :=
  ⟨by decide,
    (C2_series_order sampleExternals boxesFigure "" TerminalType.NONE "" (by decide)).1.trans
      (by rfl)⟩

/-- C3: for a non-empty collection with plot clauses `c0, c1, ...` the plot
command written by `Figure::plot` is `plot `, then `c0`, then every further
clause preceded by `, \`, a newline and 5 spaces, then a newline and one blank
line; it is the last part of the script before the optional output reset. -/
theorem C3_plot_command (E : Externals F D) (fig : Figure F D) (fptr : Sink)
    (t : TerminalType) (saveAs : String) (c0 : String) (cs : List String)
    (h : (fig.plot E fptr t saveAs).1.map IPlot.clauseText = c0 :: cs) :
    (∀ sink : Sink, plot_commands (fig.plot E fptr t saveAs).1 sink =
      sink ++ ("plot " ++ c0 ++
        String.join (cs.map fun c => ", \\" ++ "\n" ++ "     " ++ c) ++ "\n" ++ "\n")) ∧
    (fig.plot E fptr t saveAs).2 =
      fptr ++ spec_figure_part E fig t saveAs ++
        String.join ((fig.plot E fptr t saveAs).1.map IPlot.settingsText) ++
        String.join ((fig.plot E fptr t saveAs).1.map IPlot.dataText) ++
        ("plot " ++ c0 ++
          String.join (cs.map fun c => ", \\" ++ "\n" ++ "     " ++ c) ++ "\n" ++ "\n") ++
        spec_reset saveAs := by
  have hne : fig.plots_ ≠ [] := by
    intro h0
    rw [plot_fst, h0] at h
    simp [plot_uids] at h
  have hcmd : spec_plot_command ((fig.plot E fptr t saveAs).1.map IPlot.clauseText) =
      "plot " ++ c0 ++
        String.join (cs.map fun c => ", \\" ++ "\n" ++ "     " ++ c) ++ "\n" ++ "\n" := by
    rw [h, spec_plot_command, intercalate_cons]
    simp [-String.reduceAppend, String.append_assoc]
  constructor
  · intro sink
    obtain ⟨p, rest, hpr⟩ := List.exists_cons_of_ne_nil
      (plot_uids_ne_nil fig.plots_ 0 hne)
    rw [← hcmd, plot_fst, hpr, plot_commands_eq]
  · rw [← hcmd, plot_snd_nonempty E fig fptr t saveAs hne, plot_fst]
    simp [-String.reduceAppend, spec_series, String.append_assoc]

/-- C3 at the first figure of `examples/boxes.cpp`: the plot line reads
`plot <clause of boxes1>, \` and then 5 spaces and `<clause of boxes2>`. -/
theorem C3_plot_command_witness :
    (boxesFigure.plot sampleExternals "" TerminalType.NONE "").1.map IPlot.clauseText =
      ["$d0 with boxes title \"boxes1\"", "$d1 with boxes title \"boxes2\""] ∧
    plot_commands (boxesFigure.plot sampleExternals "" TerminalType.NONE "").1 "" =
      "plot $d0 with boxes title \"boxes1\", \\\n     $d1 with boxes title \"boxes2\"\n\n" :=
  ⟨by decide,
    ((C3_plot_command sampleExternals boxesFigure "" TerminalType.NONE ""
      "$d0 with boxes title \"boxes1\"" ["$d1 with boxes title \"boxes2\""]
      (by decide)).1 "").trans (by decide)⟩

/-- C4: for a figure without series, whatever its title, labels, range bounds,
flags, log bases and tics, `Figure::plot` writes the optional `set terminal`
and `set output` directives and then exactly the fixed fallback script; any two
figures without series get the same script. -/
theorem C4_empty_fallback (E : Externals F D) (fig : Figure F D) (fptr : Sink)
    (t : TerminalType) (saveAs : String) (h : fig.plots_ = []) :
    (fig.plot E fptr t saveAs).2 =
      fptr ++
        (if t = TerminalType.NONE then "" else "set terminal " ++ E.to_command t ++ "\n") ++
        (if saveAs = "" then "" else "set output '" ++ saveAs ++ "'\n") ++
        ("set xrange [-1 : +1]\n" ++ "set yrange [-1 : +1]\n" ++ "$empty << EOD\n" ++
          "0 0\n" ++ "EOD\n" ++ "\n" ++ "plot $empty with points notitle\n" ++ "\n") ∧
    ∀ other : Figure F D, other.plots_ = [] →
      (other.plot E fptr t saveAs).2 = (fig.plot E fptr t saveAs).2 := by
  constructor
  · rw [plot_empty_eq E fig fptr t saveAs h]
    rfl
  · intro other ho
    rw [plot_empty_eq E fig fptr t saveAs h, plot_empty_eq E other fptr t saveAs ho]

/-- C4 at a figure with a title, explicit reversed logarithmic axes and tics
but no series: none of it reaches the script. -/
theorem C4_empty_fallback_witness :
    ({ sampleFigure "Boxes" with
        autoscale_x_ := false, reverse_x_ := true, log_y_ := true,
        xtics_labels_ := ["a"], xtics_values_ := [0] } : Figure Int Nat).plots_ = [] ∧
    (({ sampleFigure "Boxes" with
        autoscale_x_ := false, reverse_x_ := true, log_y_ := true,
        xtics_labels_ := ["a"], xtics_values_ := [0] } : Figure Int Nat).plot
        sampleExternals "" (TerminalType.other 0) "out.png").2 =
      "set terminal pngcairo\nset output 'out.png'\n" ++
      "set xrange [-1 : +1]\nset yrange [-1 : +1]\n$empty << EOD\n0 0\nEOD\n\n" ++
      "plot $empty with points notitle\n\n" :=
  ⟨rfl,
    (C4_empty_fallback sampleExternals
      { sampleFigure "Boxes" with
        autoscale_x_ := false, reverse_x_ := true, log_y_ := true,
        xtics_labels_ := ["a"], xtics_values_ := [0] }
      "" (TerminalType.other 0) "out.png" rfl).1.trans (by rfl)⟩

/-- C5: for a figure with at least one series, `Figure::plot` writes one range
block, between the label directives and the reverse directives, chosen by the
two autoscale flags: `set autoscale`; `set autoscale x` and an explicit y range;
an explicit x range and `set autoscale y`; or both explicit ranges. In the block
each axis has exactly one directive that either autoscales it or gives it an
explicit `[min:max]` range. -/
theorem C5_range_block (E : Externals F D) (fig : Figure F D) (fptr : Sink)
    (t : TerminalType) (saveAs : String) (h : fig.plots_ ≠ []) :
    (fig.plot E fptr t saveAs).2 =
      fptr ++ spec_terminal E t ++ spec_output saveAs ++ spec_labels E fig ++
        String.join ((spec_range_block fig).map (RangeDirective.text E)) ++
        spec_reverse fig ++ spec_logscale E fig ++ spec_tics E fig ++
        spec_series (fig.plot E fptr t saveAs).1 ++ spec_reset saveAs ∧
    (∀ sink : Sink, plot_ranges E fig sink =
      sink ++ String.join ((spec_range_block fig).map (RangeDirective.text E))) ∧
    spec_range_block fig =
      (if fig.autoscale_x_ = true ∧ fig.autoscale_y_ = true then
        [RangeDirective.autoscale]
      else if fig.autoscale_x_ = true then
        [RangeDirective.autoscale_x, RangeDirective.yrange fig.min_y_ fig.max_y_]
      else if fig.autoscale_y_ = true then
        [RangeDirective.xrange fig.min_x_ fig.max_x_, RangeDirective.autoscale_y]
      else
        [RangeDirective.xrange fig.min_x_ fig.max_x_,
          RangeDirective.yrange fig.min_y_ fig.max_y_]) ∧
    (spec_range_block fig).countP RangeDirective.autoscalesX +
      (spec_range_block fig).countP RangeDirective.explicitX = 1 ∧
    (spec_range_block fig).countP RangeDirective.autoscalesY +
      (spec_range_block fig).countP RangeDirective.explicitY = 1 := by
  refine ⟨?_, ?_, ?_, ?_, ?_⟩
  · rw [plot_snd_nonempty E fig fptr t saveAs h, plot_fst]
    simp [-String.reduceAppend, spec_figure_part, spec_ranges, String.append_assoc]
  · intro sink
    rw [plot_ranges_eq, spec_ranges]
  · unfold spec_range_block
    cases fig.autoscale_x_ <;> cases fig.autoscale_y_ <;> simp
  · unfold spec_range_block
    cases fig.autoscale_x_ <;> cases fig.autoscale_y_ <;>
      simp [RangeDirective.autoscalesX, RangeDirective.explicitX, List.countP_cons]
  · unfold spec_range_block
    cases fig.autoscale_x_ <;> cases fig.autoscale_y_ <;>
      simp [RangeDirective.autoscalesY, RangeDirective.explicitY, List.countP_cons]

/-- C5 at the first figure of `examples/boxes.cpp` with the x autoscale switched
off: the block is the explicit x range followed by `set autoscale y`. -/
theorem C5_range_block_witness :
    ({ boxesFigure with autoscale_x_ := false } : Figure Int Nat).plots_ ≠ [] ∧
    plot_ranges sampleExternals ({ boxesFigure with autoscale_x_ := false } : Figure Int Nat)
      "" = "set xrange [-1:1]\nset autoscale y\n" :=
  ⟨by simp [boxesFigure, Figure.add],
    ((C5_range_block sampleExternals { boxesFigure with autoscale_x_ := false } ""
      TerminalType.NONE "" (by simp [boxesFigure, Figure.add])).2.1 "").trans (by rfl)⟩

theorem xtics_fill_eq (E : Externals F D) (k i : Nat) (values : List D) :
    xtics_fill E k i values = values ++ (List.range' i k).map E.castDouble := by
  induction k generalizing i values with
  | zero => simp [xtics_fill]
  | succ k ih => simp [xtics_fill, ih, List.range'_succ]

theorem xtics_values_eq (E : Externals F D) (fig : Figure F D) (labels : List String) :
    (fig.xtics E labels).xtics_values_ = (List.range labels.length).map E.castDouble := by
  simp [Figure.xtics, xtics_fill_eq, List.range_eq_range']

theorem ends_with_append (a b : String) : ends_with (a ++ b) b = true := by
  simp only [ends_with, String.data_append, List.isSuffixOf_iff_suffix]
  exact List.suffix_append a.data b.data

/-- C6: after `xtics(labels)` with a non-empty list of labels on a figure with at
least one series, `Figure::plot` writes one tics directive, after the logscale
directives and before the series: `set xtics(` followed by the pairs
`"label" index` joined by `, `, then `)` and a newline. The formatter of `fmt`
is taken to print the double of an index as the index in decimal. -/
theorem C6_xtics_directive (E : Externals F D) (fig : Figure F D) (labels : List String)
    (fptr : Sink) (t : TerminalType) (saveAs : String)
    (hfmt : ∀ i : Nat, E.fmtDouble (E.castDouble i) = toString i)
    (hl : labels ≠ []) (hp : fig.plots_ ≠ []) :
    (∀ sink : Sink, plot_xtics E (fig.xtics E labels) sink =
      sink ++ ("set xtics(" ++
        String.intercalate ", " ((List.zip labels (List.range labels.length)).map
          fun li => "\"" ++ li.1 ++ "\" " ++ toString li.2) ++ ")\n")) ∧
    ((fig.xtics E labels).plot E fptr t saveAs).2 =
      fptr ++ spec_terminal E t ++ spec_output saveAs ++ spec_labels E fig ++
        spec_ranges E fig ++ spec_reverse fig ++ spec_logscale E fig ++
        ("set xtics(" ++
          String.intercalate ", " ((List.zip labels (List.range labels.length)).map
            fun li => "\"" ++ li.1 ++ "\" " ++ toString li.2) ++ ")\n") ++
        spec_series ((fig.xtics E labels).plot E fptr t saveAs).1 ++ spec_reset saveAs := by
  have htics : spec_tics E (fig.xtics E labels) =
      "set xtics(" ++
        String.intercalate ", " ((List.zip labels (List.range labels.length)).map
          fun li => "\"" ++ li.1 ++ "\" " ++ toString li.2) ++ ")\n" := by
    have hlabels : (fig.xtics E labels).xtics_labels_ = labels := rfl
    unfold spec_tics spec_tics_directive
    rw [xtics_values_eq, hlabels, if_neg hl,
      c9zip_eq_zip E.zip_unequal labels _ (by simp), List.zip_map_right]
    simp [-String.reduceAppend, List.map_map, Function.comp_def, spec_tic_pair, hfmt,
      String.append_assoc]
  constructor
  · intro sink
    rw [plot_xtics_eq, htics]
  · have hp2 : (fig.xtics E labels).plots_ ≠ [] := hp
    rw [plot_snd_nonempty E (fig.xtics E labels) fptr t saveAs hp2, plot_fst]
    unfold spec_figure_part
    rw [htics]
    simp [-String.reduceAppend, String.append_assoc, spec_labels, spec_ranges,
      spec_range_block, spec_reverse, spec_logscale, Figure.xtics]

/-- C6 at the second figure of `examples/boxes.cpp`: the directive for the
labels house, bottel, basket, number, apple. -/
theorem C6_xtics_directive_witness :
    (∀ i : Nat, sampleExternals.fmtDouble (sampleExternals.castDouble i) = toString i) ∧
    ["house", "bottel", "basket", "number", "apple"] ≠ [] ∧
    ((sampleFigure "Boxes with text").add (sampleSeries "boxes with names")).plots_ ≠ [] ∧
    plot_xtics sampleExternals
      (Figure.xtics sampleExternals
        ((sampleFigure "Boxes with text").add (sampleSeries "boxes with names"))
        ["house", "bottel", "basket", "number", "apple"]) "" =
      "set xtics(\"house\" 0, \"bottel\" 1, \"basket\" 2, \"number\" 3, \"apple\" 4)\n" :=
  ⟨fun _ => rfl, by decide, by simp [Figure.add],
    ((C6_xtics_directive sampleExternals
      ((sampleFigure "Boxes with text").add (sampleSeries "boxes with names"))
      ["house", "bottel", "basket", "number", "apple"] "" TerminalType.NONE ""
      (fun _ => rfl) (by decide) (by simp [Figure.add])).1 "").trans (by rfl)⟩

/-- C8: after `xtics(labels)`, whatever the tics were before, the stored labels
are `labels` and the stored values are the doubles of 0, 1, ..., n-1 for the n
labels, so both sequences have length n; for three labels the values are those
of 0, 1, 2. -/
theorem C8_xtics_default_values (E : Externals F D) (fig : Figure F D)
    (labels : List String) :
    (fig.xtics E labels).xtics_labels_ = labels ∧
    (fig.xtics E labels).xtics_values_ = (List.range labels.length).map E.castDouble ∧
    (fig.xtics E labels).xtics_values_.length = labels.length ∧
    (∀ a b c : String, (fig.xtics E [a, b, c]).xtics_values_ =
      [E.castDouble 0, E.castDouble 1, E.castDouble 2]) := by
  refine ⟨rfl, xtics_values_eq E fig labels, ?_, ?_⟩
  · rw [xtics_values_eq]
    simp
  · intro a b c
    rfl

/-- C9: after any sequence of `xtics` calls, `clear_xtics()` leaves both tics
sequences empty, the tics step of a following `Figure::plot` writes nothing, and
the script goes from the logscale directives straight to the series (or is the
fallback script when there is no series). -/
theorem C9_clear_xtics (E : Externals F D) (fig : Figure F D) (calls : List (TicsCall D))
    (fptr : Sink) (t : TerminalType) (saveAs : String) :
    (runTicsCalls E fig calls).clear_xtics.xtics_labels_ = [] ∧
    (runTicsCalls E fig calls).clear_xtics.xtics_values_ = [] ∧
    (∀ sink : Sink, plot_xtics E (runTicsCalls E fig calls).clear_xtics sink = sink) ∧
    ((runTicsCalls E fig calls).clear_xtics.plot E fptr t saveAs).2 =
      fptr ++ spec_terminal E t ++ spec_output saveAs ++
        (if (runTicsCalls E fig calls).clear_xtics.plots_.isEmpty then spec_fallback
        else
          spec_labels E (runTicsCalls E fig calls).clear_xtics ++
          spec_ranges E (runTicsCalls E fig calls).clear_xtics ++
          spec_reverse (runTicsCalls E fig calls).clear_xtics ++
          spec_logscale E (runTicsCalls E fig calls).clear_xtics ++
          spec_series ((runTicsCalls E fig calls).clear_xtics.plot E fptr t saveAs).1 ++
          spec_reset saveAs) := by
  generalize runTicsCalls E fig calls = fig1
  have htics : spec_tics E fig1.clear_xtics = "" := by
    simp [spec_tics, Figure.clear_xtics]
  refine ⟨rfl, rfl, ?_, ?_⟩
  · intro sink
    rw [plot_xtics_eq, htics, String.append_empty]
  · by_cases hp : fig1.clear_xtics.plots_ = []
    · rw [plot_empty_eq E _ fptr t saveAs hp, hp]
      simp [-String.reduceAppend]
    · rw [plot_snd_nonempty E _ fptr t saveAs hp, plot_fst]
      unfold spec_figure_part
      rw [htics, if_neg (by simpa using hp)]
      simp [-String.reduceAppend, String.append_assoc]

/-- C10 (as stated, refuted): `save` of the figure titled `Boxes` with an empty
file name and the explicit kind png resolves the name `Boxes.png`, not the
input with the extension appended (`.png`), because an empty file name is first
replaced by the title. -/
theorem C10_counterexample_empty_filename :
    save_resolve sampleExternals (sampleFigure "Boxes") "" OutputFileType.png =
      ("Boxes.png", OutputFileType.png) ∧
    ends_with "" (sampleExternals.to_file_ending OutputFileType.png) = false ∧
    (save_resolve sampleExternals (sampleFigure "Boxes") "" OutputFileType.png).1 ≠
      "" ++ sampleExternals.to_file_ending OutputFileType.png := by
  refine ⟨by rfl, by rfl, by decide⟩

/-- C10 (amended): let the input name be the file name passed to `save`, or the
text of the title when that file name is empty. The resolved kind is never
`NONE`. With an explicit kind `k` the resolved kind is `k` and the resolved name
is the input name when it ends with the extension of `k`, and the input name
with that extension appended otherwise. Without a kind, when the extension is
recognised the name is unchanged and the kind is the inferred one; when it is
not, the kind is png and the name is the input name with `.png` appended. If
`filetype_from_filename` only recognises names ending in the extension of the
kind and the extension of png is `.png`, the resolved name ends with the
extension of the resolved kind. -/
theorem C10_save_resolve (E : Externals F D) (fig : Figure F D) (filename : String)
    (filetype : OutputFileType)
    (hrec : ∀ name : String, E.filetype_from_filename name ≠ OutputFileType.NONE →
      ends_with name (E.to_file_ending (E.filetype_from_filename name)) = true)
    (hpng : E.to_file_ending OutputFileType.png = ".png") :
    (save_resolve E fig filename filetype).2 ≠ OutputFileType.NONE ∧
    save_resolve E fig filename filetype =
      (if filetype ≠ OutputFileType.NONE then
        (if ends_with (if filename = "" then fig.title_.str else filename)
            (E.to_file_ending filetype) = true
          then (if filename = "" then fig.title_.str else filename)
          else (if filename = "" then fig.title_.str else filename) ++
            E.to_file_ending filetype,
         filetype)
      else if E.filetype_from_filename (if filename = "" then fig.title_.str else filename) ≠
          OutputFileType.NONE then
        ((if filename = "" then fig.title_.str else filename),
         E.filetype_from_filename (if filename = "" then fig.title_.str else filename))
      else
        ((if filename = "" then fig.title_.str else filename) ++ ".png",
         OutputFileType.png)) ∧
    ends_with (save_resolve E fig filename filetype).1
      (E.to_file_ending (save_resolve E fig filename filetype).2) = true := by
  unfold save_resolve Text.toStdString
  generalize (if filename = "" then fig.title_.str else filename) = input
  by_cases hk : filetype = OutputFileType.NONE
  · by_cases hi : E.filetype_from_filename input = OutputFileType.NONE
    · refine ⟨?_, ?_, ?_⟩
      · simp [hk, hi]
      · simp [hk, hi]
      · simp only [hk, hi, if_true]
        rw [hpng]
        exact ends_with_append input ".png"
    · refine ⟨?_, ?_, ?_⟩
      · simp [hk, hi]
      · simp [hk, hi]
      · simp only [hk, hi, if_true, if_false]
        exact hrec input hi
  · by_cases he : ends_with input (E.to_file_ending filetype) = true
    · refine ⟨?_, ?_, ?_⟩
      · simp [hk, he]
      · simp [hk, he]
      · simp only [hk, he, if_false, Bool.true_eq_false]
    · have he2 : ends_with input (E.to_file_ending filetype) = false := by
        simpa using he
      refine ⟨?_, ?_, ?_⟩
      · simp [hk, he2]
      · simp [hk, he2]
      · simp only [hk, he2, if_false, if_true]
        exact ends_with_append input _

/-- C10 (amended) with the sample tables: `chart` without a kind resolves to
`chart.png` and png; the empty name with the title `Boxes` and the kind gp
resolves to `Boxes.gp`. -/
theorem C10_save_resolve_witness :
    (∀ name : String, sampleExternals.filetype_from_filename name ≠ OutputFileType.NONE →
      ends_with name (sampleExternals.to_file_ending
        (sampleExternals.filetype_from_filename name)) = true) ∧
    sampleExternals.to_file_ending OutputFileType.png = ".png" ∧
    save_resolve sampleExternals (sampleFigure "Boxes") "chart" OutputFileType.NONE =
      ("chart.png", OutputFileType.png) ∧
    ends_with "chart.png" ".png" = true :=
  have hrec : ∀ name : String,
      sampleExternals.filetype_from_filename name ≠ OutputFileType.NONE →
      ends_with name (sampleExternals.to_file_ending
        (sampleExternals.filetype_from_filename name)) = true := by
    intro name
    simp only [sampleExternals]
    split_ifs with h1 h2 h3
    · intro _; exact h1
    · intro _; exact h2
    · intro _; exact h3
    · intro h; exact absurd rfl h
  ⟨hrec, rfl,
    (C10_save_resolve sampleExternals (sampleFigure "Boxes") "chart" OutputFileType.NONE
      hrec rfl).2.1.trans (by rfl),
    (C10_save_resolve sampleExternals (sampleFigure "Boxes") "chart" OutputFileType.NONE
      hrec rfl).2.2⟩

/-! ## Lemmas on repeated rendering and on the calls of `save` and `show` -/

theorem plot_snd_eq_append (E : Externals F D) (fig : Figure F D) (fptr : Sink)
    (t : TerminalType) (saveAs : String) :
    (fig.plot E fptr t saveAs).2 = fptr ++ (fig.plot E "" t saveAs).2 := by
  by_cases h : fig.plots_ = []
  · rw [plot_empty_eq E fig fptr t saveAs h, plot_empty_eq E fig "" t saveAs h]
    simp [-String.reduceAppend, String.append_assoc]
  · rw [plot_snd_nonempty E fig fptr t saveAs h, plot_snd_nonempty E fig "" t saveAs h]
    simp [-String.reduceAppend, String.append_assoc]

theorem plot_uids_congr (ps qs : List IPlot) (i : Nat)
    (h : List.Forall₂
      (fun p q : IPlot => p.settings = q.settings ∧ p.data = q.data ∧ p.clause = q.clause)
      ps qs) :
    plot_uids qs i = plot_uids ps i := by
  induction h generalizing i with
  | nil => rfl
  | cons hpq _ ih =>
    rename_i p q ps qs
    obtain ⟨h1, h2, h3⟩ := hpq
    simp only [plot_uids, IPlot.uid]
    rw [ih, h1, h2, h3]

theorem plot_uids_same (ps : List IPlot) (i : Nat) :
    List.Forall₂
      (fun p q : IPlot => p.settings = q.settings ∧ p.data = q.data ∧ p.clause = q.clause)
      ps (plot_uids ps i) := by
  induction ps generalizing i with
  | nil => exact List.Forall₂.nil
  | cons p rest ih =>
    simp only [plot_uids]
    exact List.Forall₂.cons ⟨rfl, rfl, rfl⟩ (ih _)

theorem plot_congr_plots (E : Externals F D) (fig : Figure F D) (fptr : Sink)
    (t : TerminalType) (saveAs : String) (ps : List IPlot)
    (h : List.Forall₂
      (fun p q : IPlot => p.settings = q.settings ∧ p.data = q.data ∧ p.clause = q.clause)
      fig.plots_ ps) :
    ({ fig with plots_ := ps } : Figure F D).plot E fptr t saveAs = fig.plot E fptr t saveAs := by
  unfold Figure.plot
  have hu : plot_uids ({ fig with plots_ := ps } : Figure F D).plots_ 0 =
      plot_uids fig.plots_ 0 := plot_uids_congr fig.plots_ ps 0 h
  rw [hu]
  rfl

theorem plot_text_no_saveAs (E : Externals F D) (fig : Figure F D) (fptr : Sink)
    (t : TerminalType) :
    (fig.plot E fptr t "").2 =
      fptr ++ spec_terminal E t ++
        (if fig.plots_.isEmpty then spec_fallback
        else
          spec_labels E fig ++ spec_ranges E fig ++ spec_reverse fig ++ spec_logscale E fig ++
            spec_tics E fig ++ spec_series (fig.plot E fptr t "").1) := by
  by_cases h : fig.plots_ = []
  · rw [plot_empty_eq E fig fptr t "" h, h]
    simp [-String.reduceAppend, spec_output]
  · rw [plot_snd_nonempty E fig fptr t "" h, plot_fst, if_neg (by simpa using h)]
    simp [-String.reduceAppend, spec_figure_part, spec_output, spec_reset, String.append_assoc]

/-- C12: when `save` resolves the file name `name` and a kind other than gp, it
throws exactly when the spawn yields no handle or `pclose` reports a nonzero
status. When the spawn fails the only call is the `popen`: nothing is rendered
and no stream changes. When it succeeds the calls are the `popen`, one `plot`
into the subprocess with `name` as save-as target, and one `pclose` of that
subprocess, also when `save` throws afterwards. -/
theorem C12_save_subprocess (E : Externals F D) (O : Oracle) (fig : Figure F D) (sys : Sys)
    (filename : String) (filetype : OutputFileType) (terminalType : TerminalType)
    (name : String) (kind : OutputFileType)
    (hres : save_resolve E fig filename filetype = (name, kind))
    (hk : kind ≠ OutputFileType.gp) :
    (thrown (fig.save E O sys filename filetype terminalType).1 ≠ none ↔
      (O.popen_ok sys.spawned = false ∨ O.pclose_status sys.spawned ≠ 0)) ∧
    (O.popen_ok sys.spawned = false →
      (fig.save E O sys filename filetype terminalType).2.2.events =
        sys.events ++ [Event.popen "gnuplot -persist" none] ∧
      (fig.save E O sys filename filetype terminalType).2.2.content = sys.content ∧
      (fig.save E O sys filename filetype terminalType).2.1 = fig) ∧
    (O.popen_ok sys.spawned = true →
      (fig.save E O sys filename filetype terminalType).2.2.events =
        sys.events ++
          [Event.popen "gnuplot -persist" (some sys.spawned),
           Event.plot (some (FileStream.pipe sys.spawned))
             (if terminalType = TerminalType.NONE then E.to_terminal kind else terminalType)
             name,
           Event.pclose sys.spawned (O.pclose_status sys.spawned)] ∧
      (fig.save E O sys filename filetype terminalType).2.2.content
          (FileStream.pipe sys.spawned) =
        (fig.plot E (sys.content (FileStream.pipe sys.spawned))
          (if terminalType = TerminalType.NONE then E.to_terminal kind else terminalType)
          name).2) := by
  unfold Figure.save
  simp only [hres, if_neg hk]
  by_cases hp : O.popen_ok sys.spawned = true
  · simp only [sys_popen, hp, if_true, Figure.plot_to, sys_pclose]
    by_cases hst : O.pclose_status sys.spawned = 0
    · simp [hst, thrown]
    · simp [hst, thrown]
  · have hp2 : O.popen_ok sys.spawned = false := by simpa using hp
    simp [sys_popen, hp2, thrown]

/-- C12 at `save("chart")` of the first figure of `examples/boxes.cpp` when no
subprocess can be spawned: `save` throws after the `popen` call. -/
theorem C12_save_subprocess_witness :
    save_resolve sampleExternals boxesFigure "chart" OutputFileType.NONE =
      ("chart.png", OutputFileType.png) ∧
    OutputFileType.png ≠ OutputFileType.gp ∧
    noSpawnOracle.popen_ok sampleSys.spawned = false ∧
    thrown (boxesFigure.save sampleExternals noSpawnOracle sampleSys "chart"
      OutputFileType.NONE TerminalType.NONE).1 ≠ none ∧
    (boxesFigure.save sampleExternals noSpawnOracle sampleSys "chart"
      OutputFileType.NONE TerminalType.NONE).2.2.events =
      [Event.popen "gnuplot -persist" none] :=
  ⟨by rfl, by decide, rfl,
    (C12_save_subprocess sampleExternals noSpawnOracle boxesFigure sampleSys "chart"
      OutputFileType.NONE TerminalType.NONE "chart.png" OutputFileType.png (by rfl)
      (by decide)).1.mpr (Or.inl rfl),
    ((C12_save_subprocess sampleExternals noSpawnOracle boxesFigure sampleSys "chart"
      OutputFileType.NONE TerminalType.NONE "chart.png" OutputFileType.png (by rfl)
      (by decide)).2.1 rfl).1⟩

/-- C13 (the code differs): when the persistent subprocess cannot be spawned,
`show(terminalType)` throws nothing and calls `plot` with the null handle that
`gnuplot_pipe` returned, which is undefined behaviour: for the first figure of
`examples/boxes.cpp` the calls are the failed `popen` and a `plot` on
`nullptr`. -/
theorem C13_show_passes_null_handle :
    noSpawnOracle.popen_ok sampleSys.spawned = false ∧
    (boxesFigure.gnuplot_pipe noSpawnOracle sampleSys).1 = none ∧
    thrown (boxesFigure.show sampleExternals noSpawnOracle sampleSys
      (TerminalType.other 1)).1 = none ∧
    (boxesFigure.show sampleExternals noSpawnOracle sampleSys
      (TerminalType.other 1)).1 = Outcome.undefined ∧
    (boxesFigure.show sampleExternals noSpawnOracle sampleSys
      (TerminalType.other 1)).2.2.events =
      [Event.popen "gnuplot -persist" none, Event.plot none (TerminalType.other 1) ""] := by
  refine ⟨rfl, by rfl, by rfl, by rfl, by rfl⟩

/-- C14 (the code differs): `close_pipe` leaves the handle in `gnuplot_pipe_`.
For a figure holding the open handle 0, the figure still holds it after
`close_pipe`, a second `close_pipe` closes the same subprocess again, and after
`close()` (whatever the `close` of the member `gnuplot_` does outside the
figure) the handle is still held, so the `close_pipe` of the destructor closes
it. -/
theorem C14_close_pipe_keeps_handle :
    (({ boxesFigure with gnuplot_pipe_ := some 0 } : Figure Int Nat).close_pipe sampleOracle
      { sampleSys with spawned := 1 }).2.1.gnuplot_pipe_ = some 0 ∧
    ((({ boxesFigure with gnuplot_pipe_ := some 0 } : Figure Int Nat).close_pipe sampleOracle
      { sampleSys with spawned := 1 }).2.1.close_pipe sampleOracle
        (({ boxesFigure with gnuplot_pipe_ := some 0 } : Figure Int Nat).close_pipe
          sampleOracle { sampleSys with spawned := 1 }).2.2).2.2.events =
      [Event.pclose 0 0, Event.pclose 0 0] ∧
    (∀ gnuplot_close : Sys → Except String Unit × Sys,
      (({ boxesFigure with gnuplot_pipe_ := some 0 } : Figure Int Nat).close gnuplot_close
        { sampleSys with spawned := 1 }).2.1.gnuplot_pipe_ = some 0) ∧
    ((({ boxesFigure with gnuplot_pipe_ := some 0 } : Figure Int Nat).close
      (fun sys => (Except.ok (), sys)) { sampleSys with spawned := 1 }).2.1.close_pipe
        sampleOracle { sampleSys with spawned := 1 }).2.2.events = [Event.pclose 0 0] := by
  refine ⟨by rfl, by rfl, fun _ => rfl, by rfl⟩

theorem plot_after_plot (E : Externals F D) (fig : Figure F D) (fptr : Sink)
    (t : TerminalType) (saveAs : String) (fptr2 : Sink) (t2 : TerminalType)
    (saveAs2 : String) :
    ({ fig with plots_ := (fig.plot E fptr t saveAs).1 } : Figure F D).plot E fptr2 t2 saveAs2 =
      fig.plot E fptr2 t2 saveAs2 := by
  rw [plot_fst]
  exact plot_congr_plots E fig fptr2 t2 saveAs2 _ (plot_uids_same fig.plots_ 0)

theorem show_held (E : Externals F D) (O : Oracle) (fig : Figure F D) (sys : Sys)
    (t : TerminalType) (id : Nat) (h : fig.gnuplot_pipe_ = some id) :
    fig.show E O sys t =
      (Outcome.ok,
        { fig with plots_ := (fig.plot E (sys.content (FileStream.pipe id)) t "").1 },
        { sys with
          events := sys.events ++ [Event.plot (some (FileStream.pipe id)) t ""]
          content := Function.update sys.content (FileStream.pipe id)
            (fig.plot E (sys.content (FileStream.pipe id)) t "").2 }) := by
  simp [Figure.show, Figure.gnuplot_pipe, h, Figure.plot_to, plot_default_saveAs]

theorem run_shows_held (E : Externals F D) (O : Oracle) (ts : List TerminalType) :
    ∀ (fig : Figure F D) (sys : Sys) (id : Nat), fig.gnuplot_pipe_ = some id →
      (run_shows E O fig sys ts).2.events =
        sys.events ++ ts.map (fun t => Event.plot (some (FileStream.pipe id)) t "") ∧
      (run_shows E O fig sys ts).2.spawned = sys.spawned ∧
      (run_shows E O fig sys ts).1.gnuplot_pipe_ = some id ∧
      (run_shows E O fig sys ts).2.content (FileStream.pipe id) =
        sys.content (FileStream.pipe id) ++
          String.join (ts.map fun t => (fig.plot E "" t "").2) := by
  induction ts with
  | nil =>
    intro fig sys id h
    simp [-String.reduceAppend, run_shows, h, join_nil]
  | cons t rest ih =>
    intro fig sys id h
    simp only [run_shows, show_held E O fig sys t id h, if_true]
    obtain ⟨h1, h2, h3, h4⟩ := ih
      ({ fig with plots_ := (fig.plot E (sys.content (FileStream.pipe id)) t "").1 })
      { sys with
        events := sys.events ++ [Event.plot (some (FileStream.pipe id)) t ""]
        content := Function.update sys.content (FileStream.pipe id)
          (fig.plot E (sys.content (FileStream.pipe id)) t "").2 }
      id h
    refine ⟨?_, h2, h3, ?_⟩
    · rw [h1]
      simp
    · rw [h4]
      simp only [Function.update_same, plot_after_plot, List.map_cons, join_cons]
      rw [plot_snd_eq_append E fig (sys.content (FileStream.pipe id)) t ""]
      simp [-String.reduceAppend, String.append_assoc]

/-- C15: for a figure without a handle and a non-empty sequence of
`show(terminalType)` calls whose first spawn succeeds, the calls made are one
`popen`, first, and then one `plot` per `show`, each into the handle of that
spawn with the terminal of the call and the empty save-as name; no `pclose` is
made, the figure ends holding the handle, and the subprocess has received the
script of the figure once per call. -/
theorem C15_show_reuses_handle (E : Externals F D) (O : Oracle) (fig : Figure F D)
    (sys : Sys) (ts : List TerminalType)
    (h0 : fig.gnuplot_pipe_ = none) (hok : O.popen_ok sys.spawned = true) (hts : ts ≠ []) :
    (run_shows E O fig sys ts).2.events =
      sys.events ++ Event.popen "gnuplot -persist" (some sys.spawned) ::
        ts.map (fun t => Event.plot (some (FileStream.pipe sys.spawned)) t "") ∧
    (run_shows E O fig sys ts).2.spawned = sys.spawned + 1 ∧
    (run_shows E O fig sys ts).1.gnuplot_pipe_ = some sys.spawned ∧
    (run_shows E O fig sys ts).2.events.countP Event.isPclose =
      sys.events.countP Event.isPclose ∧
    (run_shows E O fig sys ts).2.content (FileStream.pipe sys.spawned) =
      sys.content (FileStream.pipe sys.spawned) ++
        String.join (ts.map fun t => (fig.plot E "" t "").2) := by
  obtain ⟨t, rest, rfl⟩ := List.exists_cons_of_ne_nil hts
  have hshow : fig.show E O sys t =
      (Outcome.ok,
        { fig with
          gnuplot_pipe_ := some sys.spawned
          plots_ := (fig.plot E (sys.content (FileStream.pipe sys.spawned)) t "").1 },
        { events := sys.events ++ [Event.popen "gnuplot -persist" (some sys.spawned)] ++
            [Event.plot (some (FileStream.pipe sys.spawned)) t ""]
          content := Function.update sys.content (FileStream.pipe sys.spawned)
            (fig.plot E (sys.content (FileStream.pipe sys.spawned)) t "").2
          spawned := sys.spawned + 1 }) := by
    simp only [Figure.show, Figure.gnuplot_pipe, h0, if_true, sys_popen, hok, Option.map_some',
      Figure.plot_to, plot_default_saveAs]
    rfl
  have hevents : (run_shows E O fig sys (t :: rest)).2.events =
      sys.events ++ Event.popen "gnuplot -persist" (some sys.spawned) ::
        (t :: rest).map (fun t => Event.plot (some (FileStream.pipe sys.spawned)) t "") := by
    simp only [run_shows, hshow, if_true]
    rw [(run_shows_held E O rest _ _ sys.spawned rfl).1]
    simp
  refine ⟨hevents, ?_, ?_, ?_, ?_⟩
  · simp only [run_shows, hshow, if_true]
    rw [(run_shows_held E O rest _ _ sys.spawned rfl).2.1]
  · simp only [run_shows, hshow, if_true]
    rw [(run_shows_held E O rest _ _ sys.spawned rfl).2.2.1]
  · rw [hevents]
    simp [List.countP_append, List.countP_cons, Event.isPclose, List.countP_map,
      Function.comp_def]
  · simp only [run_shows, hshow, if_true]
    rw [(run_shows_held E O rest _ _ sys.spawned rfl).2.2.2]
    simp only [Function.update_same, List.map_cons, join_cons]
    rw [plot_snd_eq_append E fig (sys.content (FileStream.pipe sys.spawned)) t ""]
    have hsame : ∀ t2 : TerminalType,
        (({ fig with
            gnuplot_pipe_ := some sys.spawned
            plots_ := (fig.plot E (sys.content (FileStream.pipe sys.spawned)) t "").1 } :
          Figure F D).plot E "" t2 "").2 = (fig.plot E "" t2 "").2 := by
      intro t2
      have := plot_after_plot E fig (sys.content (FileStream.pipe sys.spawned)) t "" "" t2 ""
      rw [← this]
      rfl
    simp only [hsame]
    simp [-String.reduceAppend, String.append_assoc]

/-- C15 at two `show` calls on the first figure of `examples/boxes.cpp`: one
spawn, then two renderings into its handle. -/
theorem C15_show_reuses_handle_witness :
    boxesFigure.gnuplot_pipe_ = none ∧
    sampleOracle.popen_ok sampleSys.spawned = true ∧
    [TerminalType.other 1, TerminalType.NONE] ≠ [] ∧
    (run_shows sampleExternals sampleOracle boxesFigure sampleSys
      [TerminalType.other 1, TerminalType.NONE]).2.events =
      [Event.popen "gnuplot -persist" (some 0),
       Event.plot (some (FileStream.pipe 0)) (TerminalType.other 1) "",
       Event.plot (some (FileStream.pipe 0)) TerminalType.NONE ""] :=
  ⟨rfl, rfl, by decide,
    (C15_show_reuses_handle sampleExternals sampleOracle boxesFigure sampleSys
      [TerminalType.other 1, TerminalType.NONE] rfl rfl (by decide)).1.trans (by rfl)⟩

/-- C16 (as stated, refuted): for a figure without series and the save-as name
`out.png`, `Figure::plot` writes `set output 'out.png'` and the fallback script
and returns; no `set output` reset follows. -/
theorem C16_counterexample_empty_figure :
    (sampleFigure "Boxes").plots_ = [] ∧
    ("out.png" : String) ≠ "" ∧
    ((sampleFigure "Boxes").plot sampleExternals "" TerminalType.NONE "out.png").2 =
      "set output 'out.png'\n" ++
      "set xrange [-1 : +1]\nset yrange [-1 : +1]\n$empty << EOD\n0 0\nEOD\n\n" ++
      "plot $empty with points notitle\n\n" := by
  refine ⟨rfl, by decide, by rfl⟩

/-- C16 (amended): for a figure with at least one series and a non-empty save-as
name, the script written by `Figure::plot` has `set output '<name>'` right
after the optional terminal directive and ends, after the plot command, with the
reset `set output`. For a figure without series and a non-empty save-as name it
has `set output '<name>'` followed by the fallback script and nothing more. For
the empty save-as name it has neither directive. -/
theorem C16_output_reset (E : Externals F D) (fig : Figure F D) (fptr : Sink)
    (t : TerminalType) (saveAs : String) :
    (fig.plots_ ≠ [] → saveAs ≠ "" →
      (fig.plot E fptr t saveAs).2 =
        fptr ++ spec_terminal E t ++ ("set output '" ++ saveAs ++ "'\n") ++
          (spec_labels E fig ++ spec_ranges E fig ++ spec_reverse fig ++ spec_logscale E fig ++
            spec_tics E fig) ++
          spec_series (fig.plot E fptr t saveAs).1 ++ "set output\n") ∧
    (fig.plots_ = [] → saveAs ≠ "" →
      (fig.plot E fptr t saveAs).2 =
        fptr ++ spec_terminal E t ++ ("set output '" ++ saveAs ++ "'\n") ++ spec_fallback) ∧
    (saveAs = "" →
      (fig.plot E fptr t saveAs).2 =
        fptr ++ spec_terminal E t ++
          (if fig.plots_.isEmpty then spec_fallback
          else
            spec_labels E fig ++ spec_ranges E fig ++ spec_reverse fig ++
              spec_logscale E fig ++ spec_tics E fig ++
              spec_series (fig.plot E fptr t saveAs).1)) := by
  refine ⟨?_, ?_, ?_⟩
  · intro hp hs
    rw [plot_snd_nonempty E fig fptr t saveAs hp, plot_fst]
    simp [-String.reduceAppend, spec_figure_part, spec_output, spec_reset, hs,
      String.append_assoc]
  · intro hp hs
    rw [plot_empty_eq E fig fptr t saveAs hp]
    simp [-String.reduceAppend, spec_output, hs, String.append_assoc]
  · intro hs
    subst hs
    exact plot_text_no_saveAs E fig fptr t

/-- C16 (amended) at the first figure of `examples/boxes.cpp` with the save-as
name `out.png`: the script starts with `set output 'out.png'` and ends with
`set output`. -/
theorem C16_output_reset_witness :
    boxesFigure.plots_ ≠ [] ∧
    ("out.png" : String) ≠ "" ∧
    (boxesFigure.plot sampleExternals "" TerminalType.NONE "out.png").2 =
      "set output 'out.png'\n" ++
      "set title \"Boxes\"\nset autoscale\n" ++
      "set style fill solid\nset style fill solid\n" ++
      "$d0 << EOD\n1 2\nEOD\n$d1 << EOD\n1 2\nEOD\n" ++
      "plot $d0 with boxes title \"boxes1\", \\\n     $d1 with boxes title \"boxes2\"\n\n" ++
      "set output\n" :=
  ⟨by simp [boxesFigure, Figure.add], by decide,
    ((C16_output_reset sampleExternals boxesFigure "" TerminalType.NONE "out.png").1
      (by simp [boxesFigure, Figure.add]) (by decide)).trans (by rfl)⟩

/-- C17: a call of `Figure::plot` appends to the stream a text that does not
depend on the stream; the series it leaves behind give the same result in a
second call, so two calls in a row append the same text twice; and any
collection whose series differ from those of the figure only in the identities
they carry gives the same result. -/
theorem C17_plot_idempotent (E : Externals F D) (fig : Figure F D) (fptr : Sink)
    (t : TerminalType) (saveAs : String) (ps : List IPlot)
    (hps : List.Forall₂
      (fun p q : IPlot => p.settings = q.settings ∧ p.data = q.data ∧ p.clause = q.clause)
      fig.plots_ ps) :
    (fig.plot E fptr t saveAs).2 = fptr ++ (fig.plot E "" t saveAs).2 ∧
    (({ fig with plots_ := (fig.plot E fptr t saveAs).1 } : Figure F D).plot E
        (fig.plot E fptr t saveAs).2 t saveAs).2 =
      fptr ++ (fig.plot E "" t saveAs).2 ++ (fig.plot E "" t saveAs).2 ∧
    ({ fig with plots_ := (fig.plot E fptr t saveAs).1 } : Figure F D).plot E fptr t saveAs =
      fig.plot E fptr t saveAs ∧
    ({ fig with plots_ := ps } : Figure F D).plot E fptr t saveAs =
      fig.plot E fptr t saveAs := by
  refine ⟨plot_snd_eq_append E fig fptr t saveAs, ?_, plot_after_plot E fig fptr t saveAs _ _ _,
    plot_congr_plots E fig fptr t saveAs ps hps⟩
  rw [plot_after_plot, plot_snd_eq_append E fig (fig.plot E fptr t saveAs).2 t saveAs,
    plot_snd_eq_append E fig fptr t saveAs]

/-- C17 at the first figure of `examples/boxes.cpp` with the series carrying the
identities 3 and 9 instead of 7 and 7: the script is the same. -/
theorem C17_plot_idempotent_witness :
    List.Forall₂
      (fun p q : IPlot => p.settings = q.settings ∧ p.data = q.data ∧ p.clause = q.clause)
      boxesFigure.plots_
      [{ sampleSeries "boxes1" with uid_ := 3 }, { sampleSeries "boxes2" with uid_ := 9 }] ∧
    (({ boxesFigure with
        plots_ := [{ sampleSeries "boxes1" with uid_ := 3 },
          { sampleSeries "boxes2" with uid_ := 9 }] } : Figure Int Nat).plot
      sampleExternals "" TerminalType.NONE "").2 =
      (boxesFigure.plot sampleExternals "" TerminalType.NONE "").2 :=
  ⟨List.Forall₂.cons ⟨rfl, rfl, rfl⟩ (List.Forall₂.cons ⟨rfl, rfl, rfl⟩ List.Forall₂.nil),
    congrArg Prod.snd
      (C17_plot_idempotent sampleExternals boxesFigure "" TerminalType.NONE ""
        [{ sampleSeries "boxes1" with uid_ := 3 }, { sampleSeries "boxes2" with uid_ := 9 }]
        (List.Forall₂.cons ⟨rfl, rfl, rfl⟩
          (List.Forall₂.cons ⟨rfl, rfl, rfl⟩ List.Forall₂.nil))).2.2.2⟩

/-- C18: for a figure with at least one series, what `Figure::plot` writes before
the settings of the first series is, in this order: `set terminal` iff a
terminal was selected; `set output` iff the save-as name is non-empty;
`set title`, `set xlabel`, `set ylabel`, each iff the label is non-empty; the
range block; `set xrange reverse` iff x-reverse and `set yrange reverse` iff
y-reverse; `set logscale x` iff x-log and `set logscale y` iff y-log, each with
the base of its axis; the tics directive iff there are tic labels. Changing the
two autoscale flags changes the range block and nothing else of this part. -/
theorem C18_figure_part (E : Externals F D) (fig : Figure F D) (fptr : Sink)
    (t : TerminalType) (saveAs : String) (h : fig.plots_ ≠ []) :
    (fig.plot E fptr t saveAs).2 =
      fptr ++
        ((if t = TerminalType.NONE then "" else "set terminal " ++ E.to_command t ++ "\n") ++
         (if saveAs = "" then "" else "set output '" ++ saveAs ++ "'\n") ++
         (if fig.title_.empty then "" else "set title " ++ E.fmtText fig.title_ ++ "\n") ++
         (if fig.xlabel_.empty then "" else "set xlabel " ++ E.fmtText fig.xlabel_ ++ "\n") ++
         (if fig.ylabel_.empty then "" else "set ylabel " ++ E.fmtText fig.ylabel_ ++ "\n") ++
         String.join ((spec_range_block fig).map (RangeDirective.text E)) ++
         (if fig.reverse_x_ then "set xrange reverse\n" else "") ++
         (if fig.reverse_y_ then "set yrange reverse\n" else "") ++
         (if fig.log_x_ then "set logscale x " ++ E.fmtFloat fig.log_x_base_ ++ "\n"
           else "") ++
         (if fig.log_y_ then "set logscale y " ++ E.fmtFloat fig.log_y_base_ ++ "\n"
           else "") ++
         (if fig.xtics_labels_ = [] then ""
           else spec_tics_directive
             ((c9zip E.zip_unequal fig.xtics_labels_ fig.xtics_values_).map
               fun lv => (lv.1, E.fmtDouble lv.2)))) ++
        spec_series (fig.plot E fptr t saveAs).1 ++ spec_reset saveAs ∧
    ∀ ax ay : Bool,
      (({ fig with autoscale_x_ := ax, autoscale_y_ := ay } : Figure F D).plot E fptr t
          saveAs).2 =
        fptr ++ spec_terminal E t ++ spec_output saveAs ++ spec_labels E fig ++
          spec_ranges E ({ fig with autoscale_x_ := ax, autoscale_y_ := ay } : Figure F D) ++
          spec_reverse fig ++ spec_logscale E fig ++ spec_tics E fig ++
          spec_series (fig.plot E fptr t saveAs).1 ++ spec_reset saveAs := by
  constructor
  · rw [plot_snd_nonempty E fig fptr t saveAs h, plot_fst]
    simp only [spec_figure_part, spec_terminal, spec_output, spec_labels, spec_ranges,
      spec_reverse, spec_logscale, spec_tics, Text.empty, decide_eq_true_eq,
      String.append_assoc]
  · intro ax ay
    have h2 : ({ fig with autoscale_x_ := ax, autoscale_y_ := ay } : Figure F D).plots_ ≠ [] := h
    rw [plot_snd_nonempty E _ fptr t saveAs h2, plot_fst]
    simp only [spec_figure_part, spec_labels, spec_reverse, spec_logscale, spec_tics,
      String.append_assoc]

set_option maxRecDepth 4000 in
/-- C18 at the second figure of `examples/boxes.cpp` with a terminal, a save-as
name, an x label, explicit reversed x range and logarithmic y axis. -/
theorem C18_figure_part_witness :
    ({ boxesTextFigure with
        xlabel_ := { str := "goods", height := 12, bold := false },
        autoscale_x_ := false, reverse_x_ := true, log_y_ := true } :
      Figure Int Nat).plots_ ≠ [] ∧
    (({ boxesTextFigure with
        xlabel_ := { str := "goods", height := 12, bold := false },
        autoscale_x_ := false, reverse_x_ := true, log_y_ := true } :
      Figure Int Nat).plot sampleExternals "" (TerminalType.other 0) "out.png").2 =
      "set terminal pngcairo\nset output 'out.png'\n" ++
      "set title \"Boxes with text\"\nset xlabel \"goods\"\n" ++
      "set xrange [-1:1]\nset autoscale y\n" ++
      "set xrange reverse\nset logscale y 10\n" ++
      "set xtics(\"house\" 0, \"bottel\" 1, \"basket\" 2, \"number\" 3, \"apple\" 4)\n" ++
      "set style fill solid\n$d0 << EOD\n1 2\nEOD\n" ++
      "plot $d0 with boxes title \"boxes with names\"\n\nset output\n" :=
  ⟨by simp [boxesTextFigure, Figure.add],
    (C18_figure_part sampleExternals
      { boxesTextFigure with
        xlabel_ := { str := "goods", height := 12, bold := false },
        autoscale_x_ := false, reverse_x_ := true, log_y_ := true }
      "" (TerminalType.other 0) "out.png" (by simp [boxesTextFigure, Figure.add])).1.trans
      (by rfl)⟩

/-- C19: `show(fileKind)` with the script kind gp throws nothing and makes one
call, `plot` on `stdout` with the terminal `NONE` and the empty save-as name;
`stdout` receives the script of the figure without a `set terminal` and without
a `set output` directive; no subprocess is spawned, the handle held by the
figure is the one it held before, and no other stream changes. With any other
kind, `show(fileKind)` is `show(to_terminal(fileKind))`. -/
theorem C19_show_filetype (E : Externals F D) (O : Oracle) (fig : Figure F D) (sys : Sys) :
    (fig.show_filetype E O sys OutputFileType.gp).1 = Outcome.ok ∧
    (fig.show_filetype E O sys OutputFileType.gp).2.2.events =
      sys.events ++ [Event.plot (some FileStream.stdout) TerminalType.NONE ""] ∧
    (fig.show_filetype E O sys OutputFileType.gp).2.2.spawned = sys.spawned ∧
    (fig.show_filetype E O sys OutputFileType.gp).2.1.gnuplot_pipe_ = fig.gnuplot_pipe_ ∧
    (fig.show_filetype E O sys OutputFileType.gp).2.2.content FileStream.stdout =
      sys.content FileStream.stdout ++
        (if fig.plots_.isEmpty then spec_fallback
        else
          spec_labels E fig ++ spec_ranges E fig ++ spec_reverse fig ++ spec_logscale E fig ++
            spec_tics E fig ++
            spec_series (fig.show_filetype E O sys OutputFileType.gp).2.1.plots_) ∧
    (∀ stream : FileStream, stream ≠ FileStream.stdout →
      (fig.show_filetype E O sys OutputFileType.gp).2.2.content stream = sys.content stream) ∧
    (∀ filetype : OutputFileType, filetype ≠ OutputFileType.gp →
      fig.show_filetype E O sys filetype = fig.show E O sys (E.to_terminal filetype)) := by
  refine ⟨rfl, rfl, rfl, rfl, ?_, ?_, ?_⟩
  · simp only [Figure.show_filetype, if_true, Figure.plot_to, plot_default_saveAs,
      Function.update_same]
    rw [plot_text_no_saveAs, plot_fst]
    simp [-String.reduceAppend, spec_terminal, String.append_assoc, plot_fst]
  · intro stream hs
    simp only [Figure.show_filetype, if_true, Figure.plot_to, plot_default_saveAs]
    exact Function.update_noteq hs _ _
  · intro filetype hk
    simp only [Figure.show_filetype, if_neg hk]

/-- C19 at the first figure of `examples/boxes.cpp`: `show(gp)` prints the script
on `stdout`; `show(png)` is `show` with the terminal of png. -/
theorem C19_show_filetype_witness :
    OutputFileType.png ≠ OutputFileType.gp ∧
    boxesFigure.show_filetype sampleExternals sampleOracle sampleSys OutputFileType.png =
      boxesFigure.show sampleExternals sampleOracle sampleSys (TerminalType.other 0) ∧
    (boxesFigure.show_filetype sampleExternals sampleOracle sampleSys
      OutputFileType.gp).2.2.events =
      [Event.plot (some FileStream.stdout) TerminalType.NONE ""] :=
  ⟨by decide,
    (C19_show_filetype sampleExternals sampleOracle boxesFigure sampleSys).2.2.2.2.2.2
      OutputFileType.png (by decide),
    (C19_show_filetype sampleExternals sampleOracle boxesFigure sampleSys).2.1⟩

/-- C20: when the handle held by the figure, if any, comes from an earlier spawn,
`save` leaves the figure holding exactly what it held; and for a held handle
`h`, whether `save` returns or throws, the text the subprocess `h` has received
is unchanged and none of the calls `save` adds to the log is a spawn returning
`h`, a `plot` into `h` or a close of `h`. -/
theorem C20_save_keeps_persistent_handle (E : Externals F D) (O : Oracle)
    (fig : Figure F D) (sys : Sys) (filename : String) (filetype : OutputFileType)
    (terminalType : TerminalType)
    (hheld : ∀ h : Nat, fig.gnuplot_pipe_ = some h → h < sys.spawned) :
    (fig.save E O sys filename filetype terminalType).2.1.gnuplot_pipe_ =
      fig.gnuplot_pipe_ ∧
    ∀ h : Nat, fig.gnuplot_pipe_ = some h →
      (fig.save E O sys filename filetype terminalType).2.2.content (FileStream.pipe h) =
        sys.content (FileStream.pipe h) ∧
      ∃ added : List Event,
        (fig.save E O sys filename filetype terminalType).2.2.events = sys.events ++ added ∧
        ∀ e ∈ added, e.touchesPipe h = false := by
  have hspawned : ∀ h : Nat, fig.gnuplot_pipe_ = some h →
      FileStream.pipe h ≠ FileStream.pipe sys.spawned ∧ sys.spawned ≠ h := by
    intro h hh
    have hne : sys.spawned ≠ h := Nat.ne_of_gt (hheld h hh)
    exact ⟨fun hc => hne (FileStream.pipe.inj hc).symm, hne⟩
  unfold Figure.save
  by_cases hk : (save_resolve E fig filename filetype).2 = OutputFileType.gp
  · simp only [hk, if_true]
    by_cases hf : O.fopen_ok (save_resolve E fig filename filetype).1 = true
    · simp only [sys_fopen, hf, if_true, Figure.plot_to, sys_fclose]
      refine ⟨trivial, ?_⟩
      intro h hh
      constructor
      · simp [Function.update_idem]
      · refine ⟨_, by rw [List.append_assoc, List.append_assoc], ?_⟩
        intro e he
        simp only [List.mem_append, List.mem_singleton] at he
        rcases he with rfl | rfl | rfl <;> simp [Event.touchesPipe]
    · have hf2 : O.fopen_ok (save_resolve E fig filename filetype).1 = false := by
        simpa using hf
      simp only [sys_fopen, hf2, Bool.false_eq_true, if_false, Figure.plot_to, reduceCtorEq]
      refine ⟨trivial, ?_⟩
      intro h hh
      refine ⟨trivial, _, by rw [List.append_assoc], ?_⟩
      intro e he
      simp only [List.mem_append, List.mem_singleton] at he
      rcases he with rfl | rfl <;> simp [Event.touchesPipe]
  · simp only [if_neg hk]
    by_cases hp : O.popen_ok sys.spawned = true
    · simp only [sys_popen, hp, if_true, Figure.plot_to, sys_pclose]
      by_cases hst : O.pclose_status sys.spawned = 0
      · simp only [hst, ne_eq, not_true_eq_false, if_false]
        refine ⟨trivial, ?_⟩
        intro h hh
        obtain ⟨hne2, hne⟩ := hspawned h hh
        constructor
        · exact Function.update_noteq hne2 _ _
        · refine ⟨_, by rw [List.append_assoc, List.append_assoc], ?_⟩
          intro e he
          simp only [List.mem_append, List.mem_singleton] at he
          rcases he with rfl | rfl | rfl <;> simp [Event.touchesPipe, hne]
      · simp only [hst, ne_eq, not_false_eq_true, if_true]
        refine ⟨trivial, ?_⟩
        intro h hh
        obtain ⟨hne2, hne⟩ := hspawned h hh
        constructor
        · exact Function.update_noteq hne2 _ _
        · refine ⟨_, by rw [List.append_assoc, List.append_assoc], ?_⟩
          intro e he
          simp only [List.mem_append, List.mem_singleton] at he
          rcases he with rfl | rfl | rfl <;> simp [Event.touchesPipe, hne]
    · have hp2 : O.popen_ok sys.spawned = false := by simpa using hp
      simp only [sys_popen, hp2, Bool.false_eq_true, if_false]
      refine ⟨trivial, ?_⟩
      intro h hh
      obtain ⟨hne2, hne⟩ := hspawned h hh
      refine ⟨trivial, _, rfl, ?_⟩
      intro e he
      simp only [List.mem_singleton] at he
      subst he
      simp [Event.touchesPipe]

/-- C20 at the first figure of `examples/boxes.cpp` holding the handle 0 of an
earlier spawn: `save("chart")` spawns and closes the subprocess 1 and the
figure still holds the handle 0. -/
theorem C20_save_keeps_persistent_handle_witness :
    (∀ h : Nat, ({ boxesFigure with gnuplot_pipe_ := some 0 } : Figure Int Nat).gnuplot_pipe_ =
      some h → h < ({ sampleSys with spawned := 1 } : Sys).spawned) ∧
    (({ boxesFigure with gnuplot_pipe_ := some 0 } : Figure Int Nat).save sampleExternals
      sampleOracle { sampleSys with spawned := 1 } "chart" OutputFileType.NONE
      TerminalType.NONE).2.1.gnuplot_pipe_ = some 0 ∧
    (({ boxesFigure with gnuplot_pipe_ := some 0 } : Figure Int Nat).save sampleExternals
      sampleOracle { sampleSys with spawned := 1 } "chart" OutputFileType.NONE
      TerminalType.NONE).2.2.events =
      [Event.popen "gnuplot -persist" (some 1),
       Event.plot (some (FileStream.pipe 1)) (TerminalType.other 0) "chart.png",
       Event.pclose 1 0] :=
  have hheld : ∀ h : Nat,
      ({ boxesFigure with gnuplot_pipe_ := some 0 } : Figure Int Nat).gnuplot_pipe_ = some h →
      h < ({ sampleSys with spawned := 1 } : Sys).spawned := by
    intro h hh
    have h0 : some 0 = some h := hh
    cases h0
    exact Nat.zero_lt_one
  ⟨hheld,
    (C20_save_keeps_persistent_handle sampleExternals sampleOracle
      { boxesFigure with gnuplot_pipe_ := some 0 } { sampleSys with spawned := 1 } "chart"
      OutputFileType.NONE TerminalType.NONE hheld).1,
    by rfl⟩

end plotpp
